import Mathlib

/-!
# The ipvlan plugin (`plugins/main/ipvlan/ipvlan.go`)

A shallow embedding of the plugin's `loadConf`, `modeFromString`,
`createIpvlan`, `renameLink`, `cmdAdd` and `cmdDel`.

Go functions returning `error` become functions returning `Option Error`
(`none` is the nil error); functions returning `(T, error)` become
`Except Error T` (or a pair, where the source returns a value next to the
error).  Everything that touches the kernel, the file system, the address
delegate or standard output threads an explicit `World` through.

The outcomes the program cannot decide by itself (what the JSON decoder makes
of the payload, which namespace a path names, the random name, whether the
kernel or the delegate rejects a request) are the fields of `Env`.
-/

namespace Ipvlan

/-! ## Data model -/

/-- The raw configuration payload (`[]byte`). -/
abbrev Bytes := List Nat

/-- Identity of a network namespace. -/
abbrev NsId := Nat

/-- An open file descriptor (`*os.File`). -/
abbrev Fd := Nat

/-- The type `netlink.IPVlanMode` (a `uint16`). -/
abbrev IPVlanMode := Nat

/-- Modelled from the spec: the `netlink` package is not under src/. The
bridged-forwarding mode, first value of the library's enumeration. -/
def IPVLAN_MODE_L2 : IPVlanMode := 0

/-- Modelled from the spec: the `netlink` package is not under src/. The routed
mode, second value of the library's enumeration. -/
def IPVLAN_MODE_L3 : IPVlanMode := 1

/-- An argument of a format string other than the wrapped error. -/
inductive FmtArg where
  | str (s : String)
  | nilFile
  deriving DecidableEq, Repr

/-- Go `error` values: those handed back by a library call, `errors.New`,
`fmt.Errorf` without an error argument, and `fmt.Errorf` whose last argument
is the error `cause`. -/
inductive Error where
  | lib (msg : String)
  | new (msg : String)
  | errorf (format : String) (args : List FmtArg)
  | wrapf (format : String) (args : List FmtArg) (cause : Error)
  deriving DecidableEq, Repr

/-- The struct `NetConf`, with the embedded `plugin.NetConf` flattened:
`Typ` is `plugin.NetConf.Type` and `IPAMType` is `plugin.NetConf.IPAM.Type`. -/
structure NetConf where
  Name : String
  Typ : String
  IPAMType : String
  Master : String
  Mode : String
  IPMasq : Bool
  MTU : Int
  deriving DecidableEq, Repr

/-- The type `net.IPNet`, for IPv4: address and mask as 32-bit numbers. -/
structure IPNet where
  IP : Nat
  Mask : Nat
  deriving DecidableEq, Repr

/-- The struct `plugin.IPConfig`. -/
structure IPConfig where
  IP : IPNet
  Gateway : Nat
  Routes : List IPNet
  deriving DecidableEq, Repr

/-- The struct `plugin.Result`; a nil pointer is `none`. -/
structure Result where
  IP4 : Option IPConfig
  IP6 : Option IPConfig
  deriving DecidableEq, Repr

/-- The struct `skel.CmdArgs`. -/
structure CmdArgs where
  ContainerID : String
  Netns : String
  IfName : String
  Args : String
  Path : String
  StdinData : Bytes
  deriving DecidableEq, Repr

/-- The struct `netlink.LinkAttrs` (the fields the plugin reads or writes);
`Namespace` is the `NsFd` of the request, `none` when unset. -/
structure LinkAttrs where
  Index : Nat
  MTU : Int
  Name : String
  ParentIndex : Nat
  Namespace : Option Fd
  deriving DecidableEq, Repr

/-- The struct `netlink.IPVlan`. -/
structure IPVlan where
  attrs : LinkAttrs
  Mode : IPVlanMode
  deriving DecidableEq, Repr

/-- A network device as the kernel holds it. -/
structure Device where
  index : Nat
  mtu : Int
  parent : Nat
  ipvlan : Option IPVlanMode
  up : Bool
  addrs : List IPNet
  routes : List IPNet
  deriving DecidableEq, Repr

/-- An allocation held by the address delegate. -/
structure Alloc where
  ipamType : String
  payload : Bytes
  result : Result
  deriving DecidableEq, Repr

/-- The steps of the Add and Delete commands, with their arguments. -/
inductive Op where
  | loadConf (bytes : Bytes)
  | openNs (path : String)
  | randomVethName
  | modeFromString (s : String)
  | lookupMaster (name : String)
  | linkAdd (req : IPVlan)
  | execAdd (ipamType : String) (bytes : Bytes)
  | checkIP4
  | enterNs (netns : Fd)
  | renameLink (curName newName : String)
  | configureIface (ifName : String) (res : Result)
  | leaveNs
  | setupIPMasq (network : IPNet) (chain : String)
  | printResult (res : Result)
  | execDel (ipamType : String) (bytes : Bytes)
  | delLink (ifName : String)
  deriving DecidableEq, Repr

/-- The kind of a step, without its arguments. -/
inductive Step where
  | loadConf | openNs | randomVethName | modeFromString | lookupMaster
  | linkAdd | execAdd | checkIP4 | enterNs | renameLink | configureIface
  | leaveNs | setupIPMasq | printResult | execDel | delLink
  deriving DecidableEq, Repr

/-- The kind of a step. -/
def Op.step : Op → Step
  | .loadConf _ => .loadConf
  | .openNs _ => .openNs
  | .randomVethName => .randomVethName
  | .modeFromString _ => .modeFromString
  | .lookupMaster _ => .lookupMaster
  | .linkAdd _ => .linkAdd
  | .execAdd _ _ => .execAdd
  | .checkIP4 => .checkIP4
  | .enterNs _ => .enterNs
  | .renameLink _ _ => .renameLink
  | .configureIface _ _ => .configureIface
  | .leaveNs => .leaveNs
  | .setupIPMasq _ _ => .setupIPMasq
  | .printResult _ => .printResult
  | .execDel _ _ => .execDel
  | .delLink _ => .delLink

/-- One attempted step and its outcome: `err` is the error the step raised,
`none` when it succeeded. -/
structure Event where
  op : Op
  err : Option Error
  deriving DecidableEq, Repr

/-- The state the commands act on. `links ns name` is the device called `name`
in namespace `ns`; `handles` the open namespace handles of the process;
`curNs` the namespace of the calling thread; `allocs` what the address
delegate holds; `masq` the installed masquerade rules; `stdout` the printed
results; `trace` the steps attempted so far with their outcomes (the life of
a handle is followed in `handles`, not in the trace). -/
structure World where
  links : NsId → String → Option Device
  nextIndex : Nat
  handles : List (Fd × NsId)
  curNs : NsId
  allocs : List Alloc
  masq : List (IPNet × String)
  stdout : List Result
  trace : List Event

/-- What the surroundings decide: the decoder applied to a zero `NetConf`, the
namespace a path names (or the error of opening it), the random name, the
delegate's answers, and for every kernel or library request an error with
which it is rejected for a reason outside the model (`none`: not rejected). -/
structure Env where
  unmarshal : Bytes → Except Error NetConf
  nsOfPath : String → Except Error NsId
  randomVethName : Except Error String
  linkAddFault : Option Error
  execAdd : String → Bytes → Except Error Result
  enterFault : Option Error
  linkSetNameFault : Option Error
  configureFault : Option Error
  leaveFault : Option Error
  setupIPMasqFault : Option Error
  printResultFault : Option Error
  execDel : String → Bytes → Option Error
  linkDelFault : Option Error

/-- Appends a step and its outcome to the trace. -/
def World.note (w : World) (op : Op) (err : Option Error) : World :=
  { w with trace := w.trace ++ [⟨op, err⟩] }

/-- The link table with the entry `name` of namespace `ns` replaced. -/
def setLink (links : NsId → String → Option Device) (ns : NsId) (name : String)
    (d : Option Device) : NsId → String → Option Device :=
  fun ns' name' => if ns' = ns ∧ name' = name then d else links ns' name'

/-- A descriptor above all open ones. -/
def freshFd : List (Fd × NsId) → Fd
  | [] => 0
  | h :: hs => max (h.1 + 1) (freshFd hs)

/-- The namespace an open descriptor refers to. -/
def lookupFd : List (Fd × NsId) → Fd → Option NsId
  | [], _ => none
  | h :: hs, fd => if h.1 = fd then some h.2 else lookupFd hs fd

/-! ## Library calls -/

/-- The call `os.Open(path)` on a namespace path. -/
def osOpen (env : Env) (path : String) (w : World) : Except Error Fd × World :=
  match env.nsOfPath path with
  | .error err => (.error err, w.note (.openNs path) (some err))
  | .ok ns =>
    (.ok (freshFd w.handles),
      ({ w with handles := w.handles ++ [(freshFd w.handles, ns)] }).note (.openNs path) none)

/-- The call `f.Close()`: the descriptor leaves the table. -/
def osClose (f : Fd) (w : World) : World :=
  { w with handles := w.handles.filter (fun h => h.1 ≠ f) }

/-- Modelled from the spec: `ip.RandomVethName` (package `pkg/ip`) is not
under src/. It returns a temporary name or fails. -/
def RandomVethName (env : Env) (w : World) : Except Error String × World :=
  match env.randomVethName with
  | .error err => (.error err, w.note .randomVethName (some err))
  | .ok name => (.ok name, w.note .randomVethName none)

/-- The call `netlink.LinkByName(name)`: the device of that name in the
calling thread's namespace. -/
def LinkByName (name : String) (w : World) : Except Error LinkAttrs :=
  match w.links w.curNs name with
  | none => .error (.lib "Link not found")
  | some d =>
    .ok { Index := d.index, MTU := d.mtu, Name := name, ParentIndex := d.parent,
          Namespace := none }

/-- The namespace a link-add request names: the one behind its descriptor,
the caller's when it names none. -/
def targetOf (link : IPVlan) (w : World) : Option NsId :=
  match link.attrs.Namespace with
  | none => some w.curNs
  | some fd => lookupFd w.handles fd

/-- The call `netlink.LinkAdd(link)` for an ipvlan link: the kernel creates
the device in the namespace the request names, unless a device of that name
exists there. -/
def LinkAdd (env : Env) (link : IPVlan) (w : World) : Option Error × World :=
  match targetOf link w with
  | none => (some (.lib "bad file descriptor"), w.note (.linkAdd link) (some (.lib "bad file descriptor")))
  | some ns =>
    match w.links ns link.attrs.Name with
    | some _ => (some (.lib "file exists"), w.note (.linkAdd link) (some (.lib "file exists")))
    | none =>
      match env.linkAddFault with
      | some err => (some err, w.note (.linkAdd link) (some err))
      | none =>
        (none,
          ({ w with
              links := (setLink w.links ns link.attrs.Name
                (some { index := w.nextIndex, mtu := link.attrs.MTU,
                        parent := link.attrs.ParentIndex, ipvlan := some link.Mode,
                        up := false, addrs := [], routes := [] })),
              nextIndex := w.nextIndex + 1 }).note (.linkAdd link) none)

/-- The call `netlink.LinkSetName(link, name)`, in the calling thread's
namespace, without the trace entry (`renameLink` writes it). The device is
found by the index the link carries; a name another device holds is refused;
the name the device already has is accepted and changes nothing. -/
def LinkSetName (env : Env) (link : LinkAttrs) (name : String) (w : World) :
    Option Error × World :=
  match w.links w.curNs link.Name with
  | none => (some (.lib "no such device"), w)
  | some d =>
    if d.index ≠ link.Index then (some (.lib "no such device"), w)
    else if name = link.Name then
      match env.linkSetNameFault with
      | some err => (some err, w)
      | none => (none, w)
    else
      match w.links w.curNs name with
      | some _ => (some (.lib "file exists"), w)
      | none =>
        match env.linkSetNameFault with
        | some err => (some err, w)
        | none =>
          (none, { w with links := (setLink (setLink w.links w.curNs link.Name none)
                                      w.curNs name (some d)) })

/-- Modelled from the spec: `plugin.ExecAdd` (package `pkg/plugin`) is not
under src/. The delegate is run with the payload unchanged; its allocation
is held from then on. -/
def ExecAdd (env : Env) (ipamType : String) (bytes : Bytes) (w : World) :
    Except Error Result × World :=
  match env.execAdd ipamType bytes with
  | .error err => (.error err, w.note (.execAdd ipamType bytes) (some err))
  | .ok res =>
    (.ok res, ({ w with allocs := w.allocs ++ [Alloc.mk ipamType bytes res] }).note
      (.execAdd ipamType bytes) none)

/-- Modelled from the spec: `plugin.ExecDel` (package `pkg/plugin`) is not
under src/. The delegate is run in release mode with the payload; it gives up
what it held for it. -/
def ExecDel (env : Env) (ipamType : String) (bytes : Bytes) (w : World) :
    Option Error × World :=
  match env.execDel ipamType bytes with
  | some err => (some err, w.note (.execDel ipamType bytes) (some err))
  | none =>
    (none, ({ w with allocs := (w.allocs.filter
                (fun a => ¬ (a.ipamType = ipamType ∧ a.payload = bytes))) }).note
      (.execDel ipamType bytes) none)

/-- Modelled from the spec: `plugin.ConfigureIface` (package `pkg/plugin`) is
not under src/. It applies the allocated IPv4 address and routes to the
interface of that name in the calling thread's namespace and brings it up. -/
def ConfigureIface (env : Env) (ifName : String) (res : Result) (w : World) :
    Option Error × World :=
  match w.links w.curNs ifName with
  | none =>
    (some (.wrapf "failed to lookup %q: %v" [.str ifName] (.lib "Link not found")),
      w.note (.configureIface ifName res)
        (some (.wrapf "failed to lookup %q: %v" [.str ifName] (.lib "Link not found"))))
  | some d =>
    match res.IP4 with
    | none =>
      (some (.lib "nil IPv4 configuration"),
        w.note (.configureIface ifName res) (some (.lib "nil IPv4 configuration")))
    | some ip4 =>
      match env.configureFault with
      | some err => (some err, w.note (.configureIface ifName res) (some err))
      | none =>
        (none,
          ({ w with links := (setLink w.links w.curNs ifName
                (some { d with up := true, addrs := d.addrs ++ [ip4.IP],
                               routes := d.routes ++ ip4.Routes })) }).note
            (.configureIface ifName res) none)

/-- Modelled from the spec: `ns.WithNetNS` (package `pkg/ns`) is not under
src/. Enter the namespace behind the handle, run `f`, leave to the namespace
the thread was in; a failure of any of the three is returned at once. -/
def WithNetNS (env : Env) (netns : Fd) (f : World → Option Error × World) (w : World) :
    Option Error × World :=
  match lookupFd w.handles netns with
  | none => (some (.lib "bad file descriptor"),
      w.note (.enterNs netns) (some (.lib "bad file descriptor")))
  | some ns =>
    match env.enterFault with
    | some err => (some err, w.note (.enterNs netns) (some err))
    | none =>
      let r := f (({ w with curNs := ns }).note (.enterNs netns) none)
      match r.1 with
      | some err => (some err, r.2)
      | none =>
        match env.leaveFault with
        | some err => (some err, r.2.note .leaveNs (some err))
        | none => (none, ({ r.2 with curNs := w.curNs }).note .leaveNs none)

/-- Modelled from the spec: `ns.WithNetNSPath` (package `pkg/ns`) is not under
src/. Open the namespace at the path, run `f` inside it as `WithNetNS` does,
and close the handle on every way out. -/
def WithNetNSPath (env : Env) (nspath : String) (f : World → Option Error × World)
    (w : World) : Option Error × World :=
  let o := osOpen env nspath w
  match o.1 with
  | .error err => (some (.wrapf "Failed to open %v: %v" [.str nspath] err), o.2)
  | .ok ns =>
    let r := WithNetNS env ns f o.2
    (r.1, osClose ns r.2)

/-- Modelled from the spec: `ip.Network` (package `pkg/ip`) is not under src/.
The network range of an address: the host part masked off. -/
def Network (ipn : IPNet) : IPNet :=
  { IP := ipn.IP &&& ipn.Mask, Mask := ipn.Mask }

/-- Modelled from the spec: `ip.SetupIPMasq` (package `pkg/ip`) is not under
src/. It installs the masquerade rule of a chain for a network range. -/
def SetupIPMasq (env : Env) (ipn : IPNet) (chain : String) (w : World) :
    Option Error × World :=
  match env.setupIPMasqFault with
  | some err => (some err, w.note (.setupIPMasq ipn chain) (some err))
  | none =>
    (none, ({ w with masq := w.masq ++ [(ipn, chain)] }).note (.setupIPMasq ipn chain) none)

/-- Modelled from the spec: `plugin.PrintResult` (package `pkg/plugin`) is not
under src/. It writes the result to standard output. -/
def PrintResult (env : Env) (res : Result) (w : World) : Option Error × World :=
  match env.printResultFault with
  | some err => (some err, w.note (.printResult res) (some err))
  | none => (none, ({ w with stdout := w.stdout ++ [res] }).note (.printResult res) none)

/-- Modelled from the spec: `ip.DelLinkByName` (package `pkg/ip`) is not under
src/. It looks the interface up by name in the calling thread's namespace and
removes it; it fails when there is none. -/
def DelLinkByName (env : Env) (ifName : String) (w : World) : Option Error × World :=
  match LinkByName ifName w with
  | .error err =>
    (some (.wrapf "failed to lookup %q: %v" [.str ifName] err),
      w.note (.delLink ifName) (some (.wrapf "failed to lookup %q: %v" [.str ifName] err)))
  | .ok _ =>
    match env.linkDelFault with
    | some err =>
      (some (.wrapf "failed to delete %q: %v" [.str ifName] err),
        w.note (.delLink ifName) (some (.wrapf "failed to delete %q: %v" [.str ifName] err)))
    | none =>
      (none, ({ w with links := setLink w.links w.curNs ifName none }).note
        (.delLink ifName) none)

/-! ## The plugin -/

/-- The function `loadConf`. -/
def loadConf (env : Env) (bytes : Bytes) : Except Error NetConf :=
  match env.unmarshal bytes with
  | .error err => .error (.wrapf "failed to load netconf: %v" [] err)
  | .ok n =>
    if n.Master = "" then
      .error (.errorf
        "\"master\" field is required. It specifies the host interface name to virtualize" [])
    else .ok n

/-- The function `modeFromString`: the mode and the error, as the source
returns them. -/
def modeFromString (s : String) : IPVlanMode × Option Error :=
  if s = "" then (IPVLAN_MODE_L2, none)
  else if s = "l2" then (IPVLAN_MODE_L2, none)
  else if s = "l3" then (IPVLAN_MODE_L3, none)
  else (0, some (.errorf "unknown ipvlan mode: %q" [.str s]))

/-- The function `createIpvlan`. -/
def createIpvlan (env : Env) (conf : NetConf) (ifName : String) (netns : Fd) (w : World) :
    Option Error × World :=
  match (modeFromString conf.Mode).2 with
  | some err => (some err, w.note (.modeFromString conf.Mode) (some err))
  | none =>
    match LinkByName conf.Master w with
    | .error err =>
      (some (.wrapf "failed to lookup master %q: %v" [.str conf.Master] err),
        (w.note (.modeFromString conf.Mode) none).note (.lookupMaster conf.Master) (some err))
    | .ok m =>
      let r := LinkAdd env
          { attrs := { MTU := conf.MTU, Name := ifName, ParentIndex := m.Index,
                       Namespace := some netns, Index := 0 },
            Mode := (modeFromString conf.Mode).1 }
          ((w.note (.modeFromString conf.Mode) none).note (.lookupMaster conf.Master) none)
      match r.1 with
      | some err => (some (.wrapf "failed to create ipvlan: %v" [] err), r.2)
      | none => (none, r.2)

/-- The function `renameLink`. -/
def renameLink (env : Env) (curName newName : String) (w : World) : Option Error × World :=
  match LinkByName curName w with
  | .error err => (some err, w.note (.renameLink curName newName) (some err))
  | .ok link =>
    let r := LinkSetName env link newName w
    (r.1, r.2.note (.renameLink curName newName) r.1)

/-- The function literal `cmdAdd` passes to `ns.WithNetNS`. -/
def cmdAddInNs (env : Env) (args : CmdArgs) (tmpName : String) (result : Result) (w : World) :
    Option Error × World :=
  let r := renameLink env tmpName args.IfName w
  match r.1 with
  | some err =>
    (some (.wrapf "failed to rename ipvlan to %q: %v" [.str args.IfName] err), r.2)
  | none => ConfigureIface env args.IfName result r.2

/-- The body of `cmdAdd` after `defer netns.Close()`. -/
def cmdAddOpened (env : Env) (args : CmdArgs) (n : NetConf) (netns : Fd) (w : World) :
    Option Error × World :=
  let r1 := RandomVethName env w
  match r1.1 with
  | .error err => (some err, r1.2)
  | .ok tmpName =>
    let r2 := createIpvlan env n tmpName netns r1.2
    match r2.1 with
    | some err => (some err, r2.2)
    | none =>
      -- run the IPAM plugin and get back the config to apply
      let r3 := ExecAdd env n.IPAMType args.StdinData r2.2
      match r3.1 with
      | .error err => (some err, r3.2)
      | .ok result =>
        match result.IP4 with
        | none =>
          (some (.new "IPAM plugin returned missing IPv4 config"),
            r3.2.note .checkIP4 (some (.new "IPAM plugin returned missing IPv4 config")))
        | some ip4 =>
          let r4 := WithNetNS env netns (cmdAddInNs env args tmpName result)
            (r3.2.note .checkIP4 none)
          match r4.1 with
          | some err => (some err, r4.2)
          | none =>
            if n.IPMasq then
              let r5 := SetupIPMasq env (Network ip4.IP) ("CNI-" ++ n.Name) r4.2
              match r5.1 with
              | some err => (some err, r5.2)
              | none => PrintResult env result r5.2
            else PrintResult env result r4.2

/-- The function `cmdAdd`. -/
def cmdAdd (env : Env) (args : CmdArgs) (w : World) : Option Error × World :=
  match loadConf env args.StdinData with
  | .error err => (some err, w.note (.loadConf args.StdinData) (some err))
  | .ok n =>
    let o := osOpen env args.Netns (w.note (.loadConf args.StdinData) none)
    match o.1 with
    | .error err => (some (.wrapf "failed to open netns %q: %v" [.nilFile] err), o.2)
    | .ok netns =>
      let r := cmdAddOpened env args n netns o.2
      (r.1, osClose netns r.2)

/-- The function `cmdDel`. -/
def cmdDel (env : Env) (args : CmdArgs) (w : World) : Option Error × World :=
  match loadConf env args.StdinData with
  | .error err => (some err, w.note (.loadConf args.StdinData) (some err))
  | .ok n =>
    let r := ExecDel env n.IPAMType args.StdinData (w.note (.loadConf args.StdinData) none)
    match r.1 with
    | some err => (some err, r.2)
    | none => WithNetNSPath env args.Netns (DelLinkByName env args.IfName) r.2

/-! ## The body of `cmdAdd`, block by block

The same code as `cmdAddOpened`, cut at its `if err != nil` returns, for the
proofs to walk through one block at a time. -/

/-- Lines 140 to 147 of `cmdAdd`: the masquerade rule and the result. -/
def cmdAddMasq (env : Env) (n : NetConf) (result : Result) (ip4 : IPConfig) (w : World) :
    Option Error × World :=
  if n.IPMasq then
    let r5 := SetupIPMasq env (Network ip4.IP) ("CNI-" ++ n.Name) w
    match r5.1 with
    | some err => (some err, r5.2)
    | none => PrintResult env result r5.2
  else PrintResult env result w

/-- Lines 128 to 147 of `cmdAdd`. -/
def cmdAddCommit (env : Env) (args : CmdArgs) (n : NetConf) (netns : Fd) (tmpName : String)
    (result : Result) (ip4 : IPConfig) (w : World) : Option Error × World :=
  let r4 := WithNetNS env netns (cmdAddInNs env args tmpName result) w
  match r4.1 with
  | some err => (some err, r4.2)
  | none => cmdAddMasq env n result ip4 r4.2

/-- Lines 119 to 147 of `cmdAdd`. -/
def cmdAddAllocate (env : Env) (args : CmdArgs) (n : NetConf) (netns : Fd) (tmpName : String)
    (w : World) : Option Error × World :=
  let r3 := ExecAdd env n.IPAMType args.StdinData w
  match r3.1 with
  | .error err => (some err, r3.2)
  | .ok result =>
    match result.IP4 with
    | none =>
      (some (.new "IPAM plugin returned missing IPv4 config"),
        r3.2.note .checkIP4 (some (.new "IPAM plugin returned missing IPv4 config")))
    | some ip4 => cmdAddCommit env args n netns tmpName result ip4 (r3.2.note .checkIP4 none)

/-- Lines 115 to 147 of `cmdAdd`. -/
def cmdAddCreate (env : Env) (args : CmdArgs) (n : NetConf) (netns : Fd) (tmpName : String)
    (w : World) : Option Error × World :=
  let r2 := createIpvlan env n tmpName netns w
  match r2.1 with
  | some err => (some err, r2.2)
  | none => cmdAddAllocate env args n netns tmpName r2.2

/-- The link an Add created is still there in `w'`: the temporary name was
free in namespace `ns` of the world `w` the Add started from, and in `w'` the
device with the index the kernel handed out stands in `ns` under the temporary
or the final name. -/
def World.keepsCreated (w w' : World) (ns : NsId) (tmp ifName : String) : Prop :=
  w.links ns tmp = none ∧
  ∃ name d, (name = tmp ∨ name = ifName) ∧ w'.links ns name = some d ∧ d.index = w.nextIndex

/-- The request `createIpvlan` builds. -/
def addRequest (conf : NetConf) (ifName : String) (parentIndex : Nat) (netns : Fd) : IPVlan :=
  { attrs := { MTU := conf.MTU, Name := ifName, ParentIndex := parentIndex,
               Namespace := some netns, Index := 0 },
    Mode := (modeFromString conf.Mode).1 }

/-- The device an Add leaves behind when it succeeds. -/
def addedDevice (w : World) (conf : NetConf) (parentIndex : Nat) (ip4 : IPConfig) : Device :=
  { index := w.nextIndex, mtu := conf.MTU, parent := parentIndex,
    ipvlan := some (modeFromString conf.Mode).1, up := true, addrs := [ip4.IP],
    routes := ip4.Routes }

/-- The ways an Add can go, one constructor per step at which it can stop and
one for success: what it returns, the steps it attempted with their outcomes,
and what is known of the state it leaves. -/
inductive AddRun (env : Env) (args : CmdArgs) (w : World) : Option Error → World → Prop
  | loadFail (w' : World) (e : Error)
      (hload : loadConf env args.StdinData = .error e)
      (htrace : w'.trace = w.trace ++
        [⟨.loadConf args.StdinData, some e⟩])
      (hrules : w'.masq = w.masq) (hout : w'.stdout = w.stdout) :
      AddRun env args w (some e) w'
  | openFail (w' : World) (n : NetConf) (e : Error)
      (hload : loadConf env args.StdinData = .ok n)
      (hns : env.nsOfPath args.Netns = .error e)
      (htrace : w'.trace = w.trace ++
        [⟨.loadConf args.StdinData, none⟩, ⟨.openNs args.Netns, some e⟩])
      (hrules : w'.masq = w.masq) (hout : w'.stdout = w.stdout) :
      AddRun env args w (some (.wrapf "failed to open netns %q: %v" [.nilFile] e)) w'
  | randFail (w' : World) (n : NetConf) (ns : NsId) (e : Error)
      (hload : loadConf env args.StdinData = .ok n)
      (hns : env.nsOfPath args.Netns = .ok ns)
      (hrand : env.randomVethName = .error e)
      (htrace : w'.trace = w.trace ++
        [⟨.loadConf args.StdinData, none⟩, ⟨.openNs args.Netns, none⟩,
         ⟨.randomVethName, some e⟩])
      (hrules : w'.masq = w.masq) (hout : w'.stdout = w.stdout) :
      AddRun env args w (some e) w'
  | modeFail (w' : World) (n : NetConf) (ns : NsId) (tmp : String) (e : Error)
      (hload : loadConf env args.StdinData = .ok n)
      (hns : env.nsOfPath args.Netns = .ok ns)
      (hrand : env.randomVethName = .ok tmp)
      (hmode : (modeFromString n.Mode).2 = some e)
      (htrace : w'.trace = w.trace ++
        [⟨.loadConf args.StdinData, none⟩, ⟨.openNs args.Netns, none⟩,
         ⟨.randomVethName, none⟩, ⟨.modeFromString n.Mode, some e⟩])
      (hrules : w'.masq = w.masq) (hout : w'.stdout = w.stdout) :
      AddRun env args w (some e) w'
  | lookupFail (w' : World) (n : NetConf) (ns : NsId) (tmp : String)
      (hload : loadConf env args.StdinData = .ok n)
      (hns : env.nsOfPath args.Netns = .ok ns)
      (hrand : env.randomVethName = .ok tmp)
      (hmode : (modeFromString n.Mode).2 = none)
      (hmaster : w.links w.curNs n.Master = none)
      (htrace : w'.trace = w.trace ++
        [⟨.loadConf args.StdinData, none⟩, ⟨.openNs args.Netns, none⟩,
         ⟨.randomVethName, none⟩, ⟨.modeFromString n.Mode, none⟩,
         ⟨.lookupMaster n.Master, some (.lib "Link not found")⟩])
      (hrules : w'.masq = w.masq) (hout : w'.stdout = w.stdout) :
      AddRun env args w (some (.wrapf "failed to lookup master %q: %v" [.str n.Master] (.lib "Link not found"))) w'
  | addFail (w' : World) (n : NetConf) (ns : NsId) (tmp : String) (m : Device) (e : Error)
      (hload : loadConf env args.StdinData = .ok n)
      (hns : env.nsOfPath args.Netns = .ok ns)
      (hrand : env.randomVethName = .ok tmp)
      (hmode : (modeFromString n.Mode).2 = none)
      (hmaster : w.links w.curNs n.Master = some m)
      (htrace : w'.trace = w.trace ++
        [⟨.loadConf args.StdinData, none⟩, ⟨.openNs args.Netns, none⟩,
         ⟨.randomVethName, none⟩, ⟨.modeFromString n.Mode, none⟩,
         ⟨.lookupMaster n.Master, none⟩,
         ⟨.linkAdd (addRequest n tmp m.index (freshFd w.handles)), some e⟩])
      (hrules : w'.masq = w.masq) (hout : w'.stdout = w.stdout) :
      AddRun env args w (some (.wrapf "failed to create ipvlan: %v" [] e)) w'
  | execFail (w' : World) (n : NetConf) (ns : NsId) (tmp : String) (m : Device) (e : Error)
      (hload : loadConf env args.StdinData = .ok n)
      (hns : env.nsOfPath args.Netns = .ok ns)
      (hrand : env.randomVethName = .ok tmp)
      (hmode : (modeFromString n.Mode).2 = none)
      (hmaster : w.links w.curNs n.Master = some m)
      (hexec : env.execAdd n.IPAMType args.StdinData = .error e)
      (hdev : w.keepsCreated w' ns tmp args.IfName)
      (htrace : w'.trace = w.trace ++
        [⟨.loadConf args.StdinData, none⟩, ⟨.openNs args.Netns, none⟩,
         ⟨.randomVethName, none⟩, ⟨.modeFromString n.Mode, none⟩,
         ⟨.lookupMaster n.Master, none⟩,
         ⟨.linkAdd (addRequest n tmp m.index (freshFd w.handles)), none⟩,
         ⟨.execAdd n.IPAMType args.StdinData, some e⟩])
      (hrules : w'.masq = w.masq) (hout : w'.stdout = w.stdout) :
      AddRun env args w (some e) w'
  | ip4Missing (w' : World) (n : NetConf) (ns : NsId) (tmp : String) (m : Device) (res : Result)
      (hload : loadConf env args.StdinData = .ok n)
      (hns : env.nsOfPath args.Netns = .ok ns)
      (hrand : env.randomVethName = .ok tmp)
      (hmode : (modeFromString n.Mode).2 = none)
      (hmaster : w.links w.curNs n.Master = some m)
      (hexec : env.execAdd n.IPAMType args.StdinData = .ok res)
      (hip4 : res.IP4 = none)
      (hdev : w.keepsCreated w' ns tmp args.IfName)
      (halloc : Alloc.mk n.IPAMType args.StdinData res ∈ w'.allocs)
      (htrace : w'.trace = w.trace ++
        [⟨.loadConf args.StdinData, none⟩, ⟨.openNs args.Netns, none⟩,
         ⟨.randomVethName, none⟩, ⟨.modeFromString n.Mode, none⟩,
         ⟨.lookupMaster n.Master, none⟩,
         ⟨.linkAdd (addRequest n tmp m.index (freshFd w.handles)), none⟩,
         ⟨.execAdd n.IPAMType args.StdinData, none⟩,
         ⟨.checkIP4, some (.new "IPAM plugin returned missing IPv4 config")⟩])
      (hrules : w'.masq = w.masq) (hout : w'.stdout = w.stdout) :
      AddRun env args w (some (.new "IPAM plugin returned missing IPv4 config")) w'
  | enterFail (w' : World) (n : NetConf) (ns : NsId) (tmp : String) (m : Device) (res : Result) (ip4 : IPConfig) (e : Error)
      (hload : loadConf env args.StdinData = .ok n)
      (hns : env.nsOfPath args.Netns = .ok ns)
      (hrand : env.randomVethName = .ok tmp)
      (hmode : (modeFromString n.Mode).2 = none)
      (hmaster : w.links w.curNs n.Master = some m)
      (hexec : env.execAdd n.IPAMType args.StdinData = .ok res)
      (hip4 : res.IP4 = some ip4)
      (hdev : w.keepsCreated w' ns tmp args.IfName)
      (halloc : Alloc.mk n.IPAMType args.StdinData res ∈ w'.allocs)
      (henter : env.enterFault = some e)
      (htrace : w'.trace = w.trace ++
        [⟨.loadConf args.StdinData, none⟩, ⟨.openNs args.Netns, none⟩,
         ⟨.randomVethName, none⟩, ⟨.modeFromString n.Mode, none⟩,
         ⟨.lookupMaster n.Master, none⟩,
         ⟨.linkAdd (addRequest n tmp m.index (freshFd w.handles)), none⟩,
         ⟨.execAdd n.IPAMType args.StdinData, none⟩, ⟨.checkIP4, none⟩,
         ⟨.enterNs (freshFd w.handles), some e⟩]) :
      AddRun env args w (some e) w'
  | renameFail (w' : World) (n : NetConf) (ns : NsId) (tmp : String) (m : Device) (res : Result) (ip4 : IPConfig) (e : Error)
      (hload : loadConf env args.StdinData = .ok n)
      (hns : env.nsOfPath args.Netns = .ok ns)
      (hrand : env.randomVethName = .ok tmp)
      (hmode : (modeFromString n.Mode).2 = none)
      (hmaster : w.links w.curNs n.Master = some m)
      (hexec : env.execAdd n.IPAMType args.StdinData = .ok res)
      (hip4 : res.IP4 = some ip4)
      (hdev : w.keepsCreated w' ns tmp args.IfName)
      (halloc : Alloc.mk n.IPAMType args.StdinData res ∈ w'.allocs)
      (henter : env.enterFault = none)
      (htrace : w'.trace = w.trace ++
        [⟨.loadConf args.StdinData, none⟩, ⟨.openNs args.Netns, none⟩,
         ⟨.randomVethName, none⟩, ⟨.modeFromString n.Mode, none⟩,
         ⟨.lookupMaster n.Master, none⟩,
         ⟨.linkAdd (addRequest n tmp m.index (freshFd w.handles)), none⟩,
         ⟨.execAdd n.IPAMType args.StdinData, none⟩, ⟨.checkIP4, none⟩,
         ⟨.enterNs (freshFd w.handles), none⟩, ⟨.renameLink tmp args.IfName, some e⟩]) :
      AddRun env args w (some (.wrapf "failed to rename ipvlan to %q: %v" [.str args.IfName] e)) w'
  | configureFail (w' : World) (n : NetConf) (ns : NsId) (tmp : String) (m : Device) (res : Result) (ip4 : IPConfig) (e : Error)
      (hload : loadConf env args.StdinData = .ok n)
      (hns : env.nsOfPath args.Netns = .ok ns)
      (hrand : env.randomVethName = .ok tmp)
      (hmode : (modeFromString n.Mode).2 = none)
      (hmaster : w.links w.curNs n.Master = some m)
      (hexec : env.execAdd n.IPAMType args.StdinData = .ok res)
      (hip4 : res.IP4 = some ip4)
      (hdev : w.keepsCreated w' ns tmp args.IfName)
      (halloc : Alloc.mk n.IPAMType args.StdinData res ∈ w'.allocs)
      (henter : env.enterFault = none)
      (htrace : w'.trace = w.trace ++
        [⟨.loadConf args.StdinData, none⟩, ⟨.openNs args.Netns, none⟩,
         ⟨.randomVethName, none⟩, ⟨.modeFromString n.Mode, none⟩,
         ⟨.lookupMaster n.Master, none⟩,
         ⟨.linkAdd (addRequest n tmp m.index (freshFd w.handles)), none⟩,
         ⟨.execAdd n.IPAMType args.StdinData, none⟩, ⟨.checkIP4, none⟩,
         ⟨.enterNs (freshFd w.handles), none⟩, ⟨.renameLink tmp args.IfName, none⟩,
         ⟨.configureIface args.IfName res, some e⟩]) :
      AddRun env args w (some e) w'
  | leaveFail (w' : World) (n : NetConf) (ns : NsId) (tmp : String) (m : Device) (res : Result) (ip4 : IPConfig) (e : Error)
      (hload : loadConf env args.StdinData = .ok n)
      (hns : env.nsOfPath args.Netns = .ok ns)
      (hrand : env.randomVethName = .ok tmp)
      (hmode : (modeFromString n.Mode).2 = none)
      (hmaster : w.links w.curNs n.Master = some m)
      (hexec : env.execAdd n.IPAMType args.StdinData = .ok res)
      (hip4 : res.IP4 = some ip4)
      (hdev : w.keepsCreated w' ns tmp args.IfName)
      (halloc : Alloc.mk n.IPAMType args.StdinData res ∈ w'.allocs)
      (henter : env.enterFault = none)
      (hleave : env.leaveFault = some e)
      (htrace : w'.trace = w.trace ++
        [⟨.loadConf args.StdinData, none⟩, ⟨.openNs args.Netns, none⟩,
         ⟨.randomVethName, none⟩, ⟨.modeFromString n.Mode, none⟩,
         ⟨.lookupMaster n.Master, none⟩,
         ⟨.linkAdd (addRequest n tmp m.index (freshFd w.handles)), none⟩,
         ⟨.execAdd n.IPAMType args.StdinData, none⟩, ⟨.checkIP4, none⟩,
         ⟨.enterNs (freshFd w.handles), none⟩, ⟨.renameLink tmp args.IfName, none⟩,
         ⟨.configureIface args.IfName res, none⟩, ⟨.leaveNs, some e⟩]) :
      AddRun env args w (some e) w'
  | masqFail (w' : World) (n : NetConf) (ns : NsId) (tmp : String) (m : Device) (res : Result) (ip4 : IPConfig) (e : Error)
      (hload : loadConf env args.StdinData = .ok n)
      (hns : env.nsOfPath args.Netns = .ok ns)
      (hrand : env.randomVethName = .ok tmp)
      (hmode : (modeFromString n.Mode).2 = none)
      (hmaster : w.links w.curNs n.Master = some m)
      (hexec : env.execAdd n.IPAMType args.StdinData = .ok res)
      (hip4 : res.IP4 = some ip4)
      (hdev : w.keepsCreated w' ns tmp args.IfName)
      (halloc : Alloc.mk n.IPAMType args.StdinData res ∈ w'.allocs)
      (henter : env.enterFault = none)
      (hleave : env.leaveFault = none)
      (hflag : n.IPMasq = true)
      (hmasq : env.setupIPMasqFault = some e)
      (htrace : w'.trace = w.trace ++
        [⟨.loadConf args.StdinData, none⟩, ⟨.openNs args.Netns, none⟩,
         ⟨.randomVethName, none⟩, ⟨.modeFromString n.Mode, none⟩,
         ⟨.lookupMaster n.Master, none⟩,
         ⟨.linkAdd (addRequest n tmp m.index (freshFd w.handles)), none⟩,
         ⟨.execAdd n.IPAMType args.StdinData, none⟩, ⟨.checkIP4, none⟩,
         ⟨.enterNs (freshFd w.handles), none⟩, ⟨.renameLink tmp args.IfName, none⟩,
         ⟨.configureIface args.IfName res, none⟩, ⟨.leaveNs, none⟩,
         ⟨.setupIPMasq (Network ip4.IP) ("CNI-" ++ n.Name), some e⟩]) :
      AddRun env args w (some e) w'
  | printFail (w' : World) (n : NetConf) (ns : NsId) (tmp : String) (m : Device) (res : Result) (ip4 : IPConfig) (e : Error)
      (hload : loadConf env args.StdinData = .ok n)
      (hns : env.nsOfPath args.Netns = .ok ns)
      (hrand : env.randomVethName = .ok tmp)
      (hmode : (modeFromString n.Mode).2 = none)
      (hmaster : w.links w.curNs n.Master = some m)
      (hexec : env.execAdd n.IPAMType args.StdinData = .ok res)
      (hip4 : res.IP4 = some ip4)
      (hdev : w.keepsCreated w' ns tmp args.IfName)
      (halloc : Alloc.mk n.IPAMType args.StdinData res ∈ w'.allocs)
      (henter : env.enterFault = none)
      (hleave : env.leaveFault = none)
      (hmasq : n.IPMasq = true → env.setupIPMasqFault = none)
      (hprint : env.printResultFault = some e)
      (htrace : w'.trace = w.trace ++
        [⟨.loadConf args.StdinData, none⟩, ⟨.openNs args.Netns, none⟩,
         ⟨.randomVethName, none⟩, ⟨.modeFromString n.Mode, none⟩,
         ⟨.lookupMaster n.Master, none⟩,
         ⟨.linkAdd (addRequest n tmp m.index (freshFd w.handles)), none⟩,
         ⟨.execAdd n.IPAMType args.StdinData, none⟩, ⟨.checkIP4, none⟩,
         ⟨.enterNs (freshFd w.handles), none⟩, ⟨.renameLink tmp args.IfName, none⟩,
         ⟨.configureIface args.IfName res, none⟩, ⟨.leaveNs, none⟩] ++
        (if n.IPMasq then [⟨.setupIPMasq (Network ip4.IP) ("CNI-" ++ n.Name), none⟩] else []) ++
        [⟨.printResult res, some e⟩]) :
      AddRun env args w (some e) w'
  | ok (w' : World) (n : NetConf) (ns : NsId) (tmp : String) (m : Device) (res : Result) (ip4 : IPConfig)
      (hload : loadConf env args.StdinData = .ok n)
      (hns : env.nsOfPath args.Netns = .ok ns)
      (hrand : env.randomVethName = .ok tmp)
      (hmode : (modeFromString n.Mode).2 = none)
      (hmaster : w.links w.curNs n.Master = some m)
      (hexec : env.execAdd n.IPAMType args.StdinData = .ok res)
      (hip4 : res.IP4 = some ip4)
      (hdev : w.keepsCreated w' ns tmp args.IfName)
      (halloc : Alloc.mk n.IPAMType args.StdinData res ∈ w'.allocs)
      (henter : env.enterFault = none)
      (hleave : env.leaveFault = none)
      (hmasq : n.IPMasq = true → env.setupIPMasqFault = none)
      (hprint : env.printResultFault = none)
      (hfree : w.links ns tmp = none)
      (hlinks : ∀ ns' name', w'.links ns' name' =
        if ns' = ns ∧ name' = args.IfName then some (addedDevice w n m.index ip4)
        else if ns' = ns ∧ name' = tmp then none else w.links ns' name')
      (hrules : w'.masq = w.masq ++
        (if n.IPMasq then [(Network ip4.IP, "CNI-" ++ n.Name)] else []))
      (hout : w'.stdout = w.stdout ++ [res])
      (htrace : w'.trace = w.trace ++
        [⟨.loadConf args.StdinData, none⟩, ⟨.openNs args.Netns, none⟩,
         ⟨.randomVethName, none⟩, ⟨.modeFromString n.Mode, none⟩,
         ⟨.lookupMaster n.Master, none⟩,
         ⟨.linkAdd (addRequest n tmp m.index (freshFd w.handles)), none⟩,
         ⟨.execAdd n.IPAMType args.StdinData, none⟩, ⟨.checkIP4, none⟩,
         ⟨.enterNs (freshFd w.handles), none⟩, ⟨.renameLink tmp args.IfName, none⟩,
         ⟨.configureIface args.IfName res, none⟩, ⟨.leaveNs, none⟩] ++
        (if n.IPMasq then [⟨.setupIPMasq (Network ip4.IP) ("CNI-" ++ n.Name), none⟩] else []) ++
        [⟨.printResult res, none⟩]) :
      AddRun env args w none w'

/-- The returned error `e` is the step's error `inner`, as it is or wrapped
once by `fmt.Errorf`. -/
def Wraps (e inner : Error) : Prop :=
  e = inner ∨ ∃ format args, e = .wrapf format args inner

/-- The steps of an Add up to the return from the target namespace. -/
def provisionSteps : List Step :=
  [.loadConf, .openNs, .randomVethName, .modeFromString, .lookupMaster, .linkAdd, .execAdd,
   .checkIP4, .enterNs, .renameLink, .configureIface, .leaveNs]

/-- The fixed sequence of steps of an Add; the masquerade step is there only
when the configuration asks for it. -/
def addSteps (ipMasq : Bool) : List Step :=
  provisionSteps ++ (if ipMasq then [.setupIPMasq] else []) ++ [.printResult]

/-- The fixed sequence of steps of a Delete: load, release, then the deletion
inside the namespace (open it, enter, delete the link, leave). -/
def delSteps : List Step :=
  [.loadConf, .execDel, .openNs, .enterNs, .delLink, .leaveNs]

/-- The ways a Delete can go, one constructor per step at which it can stop
and one for success: what it returns, the steps it attempted with their
outcomes, and the links it leaves. -/
inductive DelRun (env : Env) (args : CmdArgs) (w : World) : Option Error → World → Prop
  | loadFail (w' : World) (e : Error)
      (hload : loadConf env args.StdinData = .error e)
      (htrace : w'.trace = w.trace ++ [⟨.loadConf args.StdinData, some e⟩])
      (hlinks : w'.links = w.links) (hallocs : w'.allocs = w.allocs) :
      DelRun env args w (some e) w'
  | releaseFail (w' : World) (n : NetConf) (e : Error)
      (hload : loadConf env args.StdinData = .ok n)
      (hrel : env.execDel n.IPAMType args.StdinData = some e)
      (htrace : w'.trace = w.trace ++
        [⟨.loadConf args.StdinData, none⟩, ⟨.execDel n.IPAMType args.StdinData, some e⟩])
      (hlinks : w'.links = w.links) (hallocs : w'.allocs = w.allocs) :
      DelRun env args w (some e) w'
  | openFail (w' : World) (n : NetConf) (e : Error)
      (hload : loadConf env args.StdinData = .ok n)
      (hrel : env.execDel n.IPAMType args.StdinData = none)
      (hns : env.nsOfPath args.Netns = .error e)
      (htrace : w'.trace = w.trace ++
        [⟨.loadConf args.StdinData, none⟩, ⟨.execDel n.IPAMType args.StdinData, none⟩,
         ⟨.openNs args.Netns, some e⟩])
      (hlinks : w'.links = w.links) :
      DelRun env args w (some (.wrapf "Failed to open %v: %v" [.str args.Netns] e)) w'
  | enterFail (w' : World) (n : NetConf) (ns : NsId) (e : Error)
      (hload : loadConf env args.StdinData = .ok n)
      (hrel : env.execDel n.IPAMType args.StdinData = none)
      (hns : env.nsOfPath args.Netns = .ok ns)
      (henter : env.enterFault = some e)
      (htrace : w'.trace = w.trace ++
        [⟨.loadConf args.StdinData, none⟩, ⟨.execDel n.IPAMType args.StdinData, none⟩,
         ⟨.openNs args.Netns, none⟩, ⟨.enterNs (freshFd w.handles), some e⟩])
      (hlinks : w'.links = w.links) :
      DelRun env args w (some e) w'
  | absent (w' : World) (n : NetConf) (ns : NsId)
      (hload : loadConf env args.StdinData = .ok n)
      (hrel : env.execDel n.IPAMType args.StdinData = none)
      (hns : env.nsOfPath args.Netns = .ok ns)
      (henter : env.enterFault = none)
      (habsent : w.links ns args.IfName = none)
      (htrace : w'.trace = w.trace ++
        [⟨.loadConf args.StdinData, none⟩, ⟨.execDel n.IPAMType args.StdinData, none⟩,
         ⟨.openNs args.Netns, none⟩, ⟨.enterNs (freshFd w.handles), none⟩,
         ⟨.delLink args.IfName,
           some (.wrapf "failed to lookup %q: %v" [.str args.IfName] (.lib "Link not found"))⟩])
      (hlinks : w'.links = w.links) :
      DelRun env args w
        (some (.wrapf "failed to lookup %q: %v" [.str args.IfName] (.lib "Link not found"))) w'
  | delFail (w' : World) (n : NetConf) (ns : NsId) (d : Device) (e : Error)
      (hload : loadConf env args.StdinData = .ok n)
      (hrel : env.execDel n.IPAMType args.StdinData = none)
      (hns : env.nsOfPath args.Netns = .ok ns)
      (henter : env.enterFault = none)
      (hthere : w.links ns args.IfName = some d)
      (hdel : env.linkDelFault = some e)
      (htrace : w'.trace = w.trace ++
        [⟨.loadConf args.StdinData, none⟩, ⟨.execDel n.IPAMType args.StdinData, none⟩,
         ⟨.openNs args.Netns, none⟩, ⟨.enterNs (freshFd w.handles), none⟩,
         ⟨.delLink args.IfName, some (.wrapf "failed to delete %q: %v" [.str args.IfName] e)⟩])
      (hlinks : w'.links = w.links) :
      DelRun env args w (some (.wrapf "failed to delete %q: %v" [.str args.IfName] e)) w'
  | leaveFail (w' : World) (n : NetConf) (ns : NsId) (d : Device) (e : Error)
      (hload : loadConf env args.StdinData = .ok n)
      (hrel : env.execDel n.IPAMType args.StdinData = none)
      (hns : env.nsOfPath args.Netns = .ok ns)
      (henter : env.enterFault = none)
      (hthere : w.links ns args.IfName = some d)
      (hdel : env.linkDelFault = none)
      (hleave : env.leaveFault = some e)
      (htrace : w'.trace = w.trace ++
        [⟨.loadConf args.StdinData, none⟩, ⟨.execDel n.IPAMType args.StdinData, none⟩,
         ⟨.openNs args.Netns, none⟩, ⟨.enterNs (freshFd w.handles), none⟩,
         ⟨.delLink args.IfName, none⟩, ⟨.leaveNs, some e⟩])
      (hlinks : w'.links = setLink w.links ns args.IfName none) :
      DelRun env args w (some e) w'
  | ok (w' : World) (n : NetConf) (ns : NsId) (d : Device)
      (hload : loadConf env args.StdinData = .ok n)
      (hrel : env.execDel n.IPAMType args.StdinData = none)
      (hns : env.nsOfPath args.Netns = .ok ns)
      (henter : env.enterFault = none)
      (hthere : w.links ns args.IfName = some d)
      (hdel : env.linkDelFault = none)
      (hleave : env.leaveFault = none)
      (htrace : w'.trace = w.trace ++
        [⟨.loadConf args.StdinData, none⟩, ⟨.execDel n.IPAMType args.StdinData, none⟩,
         ⟨.openNs args.Netns, none⟩, ⟨.enterNs (freshFd w.handles), none⟩,
         ⟨.delLink args.IfName, none⟩, ⟨.leaveNs, none⟩])
      (hlinks : w'.links = setLink w.links ns args.IfName none)
      (hallocs : w'.allocs = w.allocs.filter
        (fun a => ¬ (a.ipamType = n.IPAMType ∧ a.payload = args.StdinData)))
      (hhandles : w'.handles = w.handles) (hcur : w'.curNs = w.curNs) :
      DelRun env args w none w'

/-! ## A concrete host

A host with one interface `eth0` in its own namespace `0`, a container
namespace `1` at `/var/run/netns/c1`, and payloads named by a number: `[1]`
decodes to a routed-mode configuration on `eth0` with masquerading and MTU
1400, `[2]` to the same without `master`, `[3]` to the same with the mode
"l5", `[4]` to the same, for which the delegate answers without IPv4. -/

/-- The configuration of payload `[1]`. -/
def conf0 : NetConf :=
  { Name := "net1", Typ := "ipvlan", IPAMType := "host-local", Master := "eth0",
    Mode := "l3", IPMasq := true, MTU := 1400 }

/-- The allocation the delegate answers with: 10.1.2.3/24. -/
def res0 : Result :=
  { IP4 := some { IP := { IP := 0x0A010203, Mask := 0xFFFFFF00 }, Gateway := 0x0A010201,
                  Routes := [] },
    IP6 := none }

/-- The surroundings in which nothing is rejected. -/
def env0 : Env :=
  { unmarshal := fun b =>
      if b = [1] then .ok conf0
      else if b = [2] then .ok { conf0 with Master := "" }
      else if b = [3] then .ok { conf0 with Mode := "l5" }
      else if b = [4] then .ok conf0
      else .error (.lib "unexpected end of JSON input"),
    nsOfPath := fun p =>
      if p = "/var/run/netns/c1" then .ok 1
      else if p = "/proc/self/ns/net" then .ok 0
      else .error (.lib "no such file or directory"),
    randomVethName := .ok "veth1a2b3c4d",
    linkAddFault := none,
    execAdd := fun _ b => if b = [4] then .ok { IP4 := none, IP6 := none } else .ok res0,
    enterFault := none, linkSetNameFault := none, configureFault := none, leaveFault := none,
    setupIPMasqFault := none, printResultFault := none,
    execDel := fun _ _ => none, linkDelFault := none }

/-- The invocation of the scenario: final name `eth0v` in `/var/run/netns/c1`. -/
def args0 : CmdArgs :=
  { ContainerID := "c1", Netns := "/var/run/netns/c1", IfName := "eth0v", Args := "",
    Path := "/opt/cni/bin", StdinData := [1] }

/-- The host before the Add. -/
def w0 : World :=
  { links := fun ns name =>
      if ns = 0 ∧ name = "eth0" then
        some { index := 2, mtu := 1500, parent := 0, ipvlan := none, up := true, addrs := [],
               routes := [] }
      else none,
    nextIndex := 3, handles := [], curNs := 0, allocs := [], masq := [], stdout := [],
    trace := [] }

/-- The host with the container namespace open on descriptor `0`. -/
def wOpened : World :=
  { w0 with handles := [(0, 1)] }

/-- The interface `eth0` of the host. -/
def eth0 : Device :=
  { index := 2, mtu := 1500, parent := 0, ipvlan := none, up := true, addrs := [], routes := [] }

/-- The host without any interface. -/
def wBare : World :=
  { w0 with links := fun _ _ => none }

/-- The error of a `(T, error)` result, `none` when it is nil. -/
def errOf {α : Type} : Except Error α → Option Error
  | .error e => some e
  | .ok _ => none

/-! ## What each call returns and leaves behind -/

theorem cmdAddOpened_eq (env : Env) (args : CmdArgs) (n : NetConf) (netns : Fd) (w : World) :
    cmdAddOpened env args n netns w =
      match (RandomVethName env w).1 with
      | .error err => (some err, (RandomVethName env w).2)
      | .ok tmpName => cmdAddCreate env args n netns tmpName (RandomVethName env w).2 := rfl

@[simp] theorem note_links (w : World) (op : Op) (e : Option Error) :
    (w.note op e).links = w.links := rfl
@[simp] theorem note_nextIndex (w : World) (op : Op) (e : Option Error) :
    (w.note op e).nextIndex = w.nextIndex := rfl
@[simp] theorem note_handles (w : World) (op : Op) (e : Option Error) :
    (w.note op e).handles = w.handles := rfl
@[simp] theorem note_curNs (w : World) (op : Op) (e : Option Error) :
    (w.note op e).curNs = w.curNs := rfl
@[simp] theorem note_allocs (w : World) (op : Op) (e : Option Error) :
    (w.note op e).allocs = w.allocs := rfl
@[simp] theorem note_masq (w : World) (op : Op) (e : Option Error) :
    (w.note op e).masq = w.masq := rfl
@[simp] theorem note_stdout (w : World) (op : Op) (e : Option Error) :
    (w.note op e).stdout = w.stdout := rfl
@[simp] theorem note_trace (w : World) (op : Op) (e : Option Error) :
    (w.note op e).trace = w.trace ++ [⟨op, e⟩] := rfl

@[simp] theorem LinkByName_note (name : String) (w : World) (op : Op) (e : Option Error) :
    LinkByName name (w.note op e) = LinkByName name w := rfl

@[simp] theorem RandomVethName_fst (env : Env) (w : World) :
    (RandomVethName env w).1 = env.randomVethName := by
  unfold RandomVethName; split <;> simp [*]

@[simp] theorem RandomVethName_snd (env : Env) (w : World) :
    (RandomVethName env w).2 = w.note .randomVethName (errOf env.randomVethName) := by
  unfold RandomVethName; split <;> simp [*, errOf]

@[simp] theorem ExecAdd_fst (env : Env) (t : String) (b : Bytes) (w : World) :
    (ExecAdd env t b w).1 = env.execAdd t b := by
  unfold ExecAdd; split <;> simp [*]

@[simp] theorem ExecDel_fst (env : Env) (t : String) (b : Bytes) (w : World) :
    (ExecDel env t b w).1 = env.execDel t b := by
  unfold ExecDel; split <;> simp [*]

@[simp] theorem SetupIPMasq_fst (env : Env) (ipn : IPNet) (c : String) (w : World) :
    (SetupIPMasq env ipn c w).1 = env.setupIPMasqFault := by
  unfold SetupIPMasq; split <;> simp [*]

@[simp] theorem PrintResult_fst (env : Env) (r : Result) (w : World) :
    (PrintResult env r w).1 = env.printResultFault := by
  unfold PrintResult; split <;> simp [*]

/-! ### Trace -/

@[simp] theorem LinkAdd_trace (env : Env) (l : IPVlan) (w : World) :
    (LinkAdd env l w).2.trace = w.trace ++ [⟨.linkAdd l, (LinkAdd env l w).1⟩] := by
  unfold LinkAdd; repeat' split
  all_goals simp [*]

@[simp] theorem LinkSetName_trace (env : Env) (l : LinkAttrs) (name : String) (w : World) :
    (LinkSetName env l name w).2.trace = w.trace := by
  unfold LinkSetName; repeat' split
  all_goals rfl

@[simp] theorem ExecAdd_trace (env : Env) (t : String) (b : Bytes) (w : World) :
    (ExecAdd env t b w).2.trace = w.trace ++ [⟨.execAdd t b, errOf (env.execAdd t b)⟩] := by
  unfold ExecAdd; split <;> simp [*, errOf]

@[simp] theorem ExecDel_trace (env : Env) (t : String) (b : Bytes) (w : World) :
    (ExecDel env t b w).2.trace = w.trace ++ [⟨.execDel t b, env.execDel t b⟩] := by
  unfold ExecDel; split <;> simp [*]

@[simp] theorem ConfigureIface_trace (env : Env) (name : String) (r : Result) (w : World) :
    (ConfigureIface env name r w).2.trace
      = w.trace ++ [⟨.configureIface name r, (ConfigureIface env name r w).1⟩] := by
  unfold ConfigureIface; repeat' split
  all_goals simp [*]

@[simp] theorem SetupIPMasq_trace (env : Env) (ipn : IPNet) (c : String) (w : World) :
    (SetupIPMasq env ipn c w).2.trace
      = w.trace ++ [⟨.setupIPMasq ipn c, env.setupIPMasqFault⟩] := by
  unfold SetupIPMasq; split <;> simp [*]

@[simp] theorem PrintResult_trace (env : Env) (r : Result) (w : World) :
    (PrintResult env r w).2.trace = w.trace ++ [⟨.printResult r, env.printResultFault⟩] := by
  unfold PrintResult; split <;> simp [*]

@[simp] theorem DelLinkByName_trace (env : Env) (name : String) (w : World) :
    (DelLinkByName env name w).2.trace
      = w.trace ++ [⟨.delLink name, (DelLinkByName env name w).1⟩] := by
  unfold DelLinkByName; repeat' split
  all_goals simp [*]

@[simp] theorem renameLink_trace (env : Env) (a b : String) (w : World) :
    (renameLink env a b w).2.trace
      = w.trace ++ [⟨.renameLink a b, (renameLink env a b w).1⟩] := by
  unfold renameLink; split <;> simp

@[simp] theorem osClose_trace (fd : Fd) (w : World) : (osClose fd w).trace = w.trace := rfl

/-! ### Fields a call leaves alone -/

@[simp] theorem LinkAdd_curNs (env : Env) (l : IPVlan) (w : World) :
    (LinkAdd env l w).2.curNs = w.curNs := by
  unfold LinkAdd; repeat' split
  all_goals rfl

@[simp] theorem LinkAdd_allocs (env : Env) (l : IPVlan) (w : World) :
    (LinkAdd env l w).2.allocs = w.allocs := by
  unfold LinkAdd; repeat' split
  all_goals rfl

@[simp] theorem LinkAdd_masq (env : Env) (l : IPVlan) (w : World) :
    (LinkAdd env l w).2.masq = w.masq := by
  unfold LinkAdd; repeat' split
  all_goals rfl

@[simp] theorem LinkAdd_stdout (env : Env) (l : IPVlan) (w : World) :
    (LinkAdd env l w).2.stdout = w.stdout := by
  unfold LinkAdd; repeat' split
  all_goals rfl

@[simp] theorem LinkSetName_curNs (env : Env) (l : LinkAttrs) (name : String) (w : World) :
    (LinkSetName env l name w).2.curNs = w.curNs := by
  unfold LinkSetName; repeat' split
  all_goals rfl

@[simp] theorem LinkSetName_allocs (env : Env) (l : LinkAttrs) (name : String) (w : World) :
    (LinkSetName env l name w).2.allocs = w.allocs := by
  unfold LinkSetName; repeat' split
  all_goals rfl

@[simp] theorem LinkSetName_masq (env : Env) (l : LinkAttrs) (name : String) (w : World) :
    (LinkSetName env l name w).2.masq = w.masq := by
  unfold LinkSetName; repeat' split
  all_goals rfl

@[simp] theorem LinkSetName_stdout (env : Env) (l : LinkAttrs) (name : String) (w : World) :
    (LinkSetName env l name w).2.stdout = w.stdout := by
  unfold LinkSetName; repeat' split
  all_goals rfl

@[simp] theorem ConfigureIface_curNs (env : Env) (name : String) (r : Result) (w : World) :
    (ConfigureIface env name r w).2.curNs = w.curNs := by
  unfold ConfigureIface; repeat' split
  all_goals rfl

@[simp] theorem ConfigureIface_allocs (env : Env) (name : String) (r : Result) (w : World) :
    (ConfigureIface env name r w).2.allocs = w.allocs := by
  unfold ConfigureIface; repeat' split
  all_goals rfl

@[simp] theorem ConfigureIface_masq (env : Env) (name : String) (r : Result) (w : World) :
    (ConfigureIface env name r w).2.masq = w.masq := by
  unfold ConfigureIface; repeat' split
  all_goals rfl

@[simp] theorem ConfigureIface_stdout (env : Env) (name : String) (r : Result) (w : World) :
    (ConfigureIface env name r w).2.stdout = w.stdout := by
  unfold ConfigureIface; repeat' split
  all_goals rfl

@[simp] theorem renameLink_curNs (env : Env) (a b : String) (w : World) :
    (renameLink env a b w).2.curNs = w.curNs := by
  unfold renameLink; split <;> simp

@[simp] theorem renameLink_allocs (env : Env) (a b : String) (w : World) :
    (renameLink env a b w).2.allocs = w.allocs := by
  unfold renameLink; split <;> simp

@[simp] theorem renameLink_masq (env : Env) (a b : String) (w : World) :
    (renameLink env a b w).2.masq = w.masq := by
  unfold renameLink; split <;> simp

@[simp] theorem renameLink_stdout (env : Env) (a b : String) (w : World) :
    (renameLink env a b w).2.stdout = w.stdout := by
  unfold renameLink; split <;> simp

/-! ### Links -/

theorem setLink_apply (links : NsId → String → Option Device) (ns : NsId) (name : String)
    (d : Option Device) (ns' : NsId) (name' : String) :
    setLink links ns name d ns' name' = if ns' = ns ∧ name' = name then d else links ns' name' :=
  rfl

/-- A link-add that succeeds found the name free in the namespace the request
names and put the new device there. -/
theorem LinkAdd_ok (env : Env) (l : IPVlan) (w : World) (h : (LinkAdd env l w).1 = none) :
    ∃ t, targetOf l w = some t ∧ w.links t l.attrs.Name = none ∧
      (LinkAdd env l w).2.links = setLink w.links t l.attrs.Name
        (some (Device.mk w.nextIndex l.attrs.MTU l.attrs.ParentIndex (some l.Mode) false [] [])) := by
  unfold LinkAdd at h ⊢
  cases ht : targetOf l w with
  | none => simp [ht] at h
  | some t =>
    simp only [ht] at h ⊢
    cases hx : w.links t l.attrs.Name with
    | some d => simp [hx] at h
    | none =>
      simp only [hx] at h ⊢
      cases hf : env.linkAddFault with
      | some e => simp [hf] at h
      | none => exact ⟨t, rfl, hx, rfl⟩

theorem LinkAdd_fail_links (env : Env) (l : IPVlan) (w : World) (e : Error)
    (h : (LinkAdd env l w).1 = some e) : (LinkAdd env l w).2.links = w.links := by
  unfold LinkAdd at h ⊢
  repeat' split
  all_goals simp_all

theorem LinkSetName_fail_links (env : Env) (l : LinkAttrs) (name : String) (w : World)
    (e : Error) (h : (LinkSetName env l name w).1 = some e) :
    (LinkSetName env l name w).2.links = w.links := by
  unfold LinkSetName at h ⊢
  repeat' split
  all_goals simp_all

theorem renameLink_fail_links (env : Env) (a b : String) (w : World) (e : Error)
    (h : (renameLink env a b w).1 = some e) : (renameLink env a b w).2.links = w.links := by
  unfold renameLink at h ⊢
  cases hl : LinkByName a w with
  | error e' => rfl
  | ok link =>
    simp only [hl, note_links] at h ⊢
    exact LinkSetName_fail_links _ _ _ _ e h

/-- A rename that succeeds found the device under the old name and leaves it
under the new one. -/
theorem renameLink_ok (env : Env) (a b : String) (w : World)
    (h : (renameLink env a b w).1 = none) :
    ∃ d, w.links w.curNs a = some d ∧ ∀ ns' name',
      (renameLink env a b w).2.links ns' name' =
        if ns' = w.curNs ∧ name' = b then some d
        else if ns' = w.curNs ∧ name' = a then none else w.links ns' name' := by
  unfold renameLink LinkByName at h ⊢
  cases hx : w.links w.curNs a with
  | none => simp [hx] at h
  | some d =>
    refine ⟨d, rfl, ?_⟩
    simp only [hx, note_links] at h ⊢
    unfold LinkSetName at h ⊢
    simp only [hx] at h ⊢
    by_cases hba : b = a
    · subst hba
      simp only [ne_eq, not_true_eq_false, if_false, if_true] at h ⊢
      cases hf : env.linkSetNameFault with
      | some e => simp [hf] at h
      | none =>
        intro ns' name'
        simp only [hf]
        split
        · rename_i hc; rw [hc.1, hc.2, hx]
        · rfl
    · simp only [ne_eq, not_true_eq_false, if_false, hba] at h ⊢
      cases hy : w.links w.curNs b with
      | some d' => simp [hy] at h
      | none =>
        simp only [hy] at h ⊢
        cases hf : env.linkSetNameFault with
        | some e => simp [hf] at h
        | none =>
          intro ns' name'
          simp only [hf, setLink_apply]

theorem ConfigureIface_fail_links (env : Env) (name : String) (r : Result) (w : World)
    (e : Error) (h : (ConfigureIface env name r w).1 = some e) :
    (ConfigureIface env name r w).2.links = w.links := by
  unfold ConfigureIface at h ⊢
  repeat' split
  all_goals simp_all

/-- A configuration that succeeds found the interface and put the address and
the routes on it. -/
theorem ConfigureIface_ok (env : Env) (name : String) (r : Result) (w : World)
    (h : (ConfigureIface env name r w).1 = none) :
    ∃ d ip4, w.links w.curNs name = some d ∧ r.IP4 = some ip4 ∧
      (ConfigureIface env name r w).2.links = setLink w.links w.curNs name
        (some { d with up := true, addrs := d.addrs ++ [ip4.IP],
                       routes := d.routes ++ ip4.Routes }) := by
  unfold ConfigureIface at h ⊢
  cases hx : w.links w.curNs name with
  | none => simp [hx] at h
  | some d =>
    simp only [hx] at h ⊢
    cases hr : r.IP4 with
    | none => simp [hr] at h
    | some ip4 =>
      simp only [hr] at h ⊢
      cases hf : env.configureFault with
      | some e => simp [hf] at h
      | none => exact ⟨d, ip4, rfl, rfl, rfl⟩

/-! ### Open handles -/

@[simp] theorem LinkAdd_handles (env : Env) (l : IPVlan) (w : World) :
    (LinkAdd env l w).2.handles = w.handles := by
  unfold LinkAdd; repeat' split
  all_goals rfl

@[simp] theorem LinkSetName_handles (env : Env) (l : LinkAttrs) (name : String) (w : World) :
    (LinkSetName env l name w).2.handles = w.handles := by
  unfold LinkSetName; repeat' split
  all_goals rfl

@[simp] theorem ExecAdd_handles (env : Env) (t : String) (b : Bytes) (w : World) :
    (ExecAdd env t b w).2.handles = w.handles := by
  unfold ExecAdd; split <;> rfl

@[simp] theorem ExecDel_handles (env : Env) (t : String) (b : Bytes) (w : World) :
    (ExecDel env t b w).2.handles = w.handles := by
  unfold ExecDel; split <;> rfl

@[simp] theorem ConfigureIface_handles (env : Env) (name : String) (r : Result) (w : World) :
    (ConfigureIface env name r w).2.handles = w.handles := by
  unfold ConfigureIface; repeat' split
  all_goals rfl

@[simp] theorem SetupIPMasq_handles (env : Env) (ipn : IPNet) (c : String) (w : World) :
    (SetupIPMasq env ipn c w).2.handles = w.handles := by
  unfold SetupIPMasq; split <;> rfl

@[simp] theorem PrintResult_handles (env : Env) (r : Result) (w : World) :
    (PrintResult env r w).2.handles = w.handles := by
  unfold PrintResult; split <;> rfl

@[simp] theorem DelLinkByName_handles (env : Env) (name : String) (w : World) :
    (DelLinkByName env name w).2.handles = w.handles := by
  unfold DelLinkByName; repeat' split
  all_goals rfl

@[simp] theorem createIpvlan_handles (env : Env) (n : NetConf) (name : String) (fd : Fd)
    (w : World) : (createIpvlan env n name fd w).2.handles = w.handles := by
  unfold createIpvlan; dsimp only
  repeat' split
  all_goals simp

@[simp] theorem renameLink_handles (env : Env) (a b : String) (w : World) :
    (renameLink env a b w).2.handles = w.handles := by
  unfold renameLink; split <;> simp

@[simp] theorem cmdAddInNs_handles (env : Env) (args : CmdArgs) (tmp : String) (r : Result)
    (w : World) : (cmdAddInNs env args tmp r w).2.handles = w.handles := by
  unfold cmdAddInNs; dsimp only; split <;> simp

theorem WithNetNS_handles (env : Env) (fd : Fd) (f : World → Option Error × World)
    (hf : ∀ w, (f w).2.handles = w.handles) (w : World) :
    (WithNetNS env fd f w).2.handles = w.handles := by
  unfold WithNetNS; dsimp only
  repeat' split
  all_goals simp [hf]

theorem cmdAddOpened_handles (env : Env) (args : CmdArgs) (n : NetConf) (netns : Fd)
    (w : World) : (cmdAddOpened env args n netns w).2.handles = w.handles := by
  unfold cmdAddOpened; dsimp only
  repeat' split
  all_goals simp [WithNetNS_handles]

/-- Every open descriptor is below the fresh one. -/
theorem lt_freshFd (hs : List (Fd × NsId)) : ∀ h ∈ hs, h.1 < freshFd hs := by
  induction hs with
  | nil => simp
  | cons a t ih =>
    intro h hh
    simp only [List.mem_cons] at hh
    rcases hh with rfl | hh
    · exact lt_of_lt_of_le (Nat.lt_succ_self _) (le_max_left _ _)
    · exact lt_of_lt_of_le (ih h hh) (le_max_right _ _)

/-- Closing the descriptor just opened gives the table back. -/
theorem filter_fresh (hs : List (Fd × NsId)) (ns : NsId) :
    (hs ++ [(freshFd hs, ns)]).filter (fun h => h.1 ≠ freshFd hs) = hs := by
  rw [List.filter_append]
  have h1 : hs.filter (fun h => decide (h.1 ≠ freshFd hs)) = hs := by
    apply List.filter_eq_self.mpr
    intro a ha
    have := lt_freshFd hs a ha
    simpa using Nat.ne_of_lt this
  rw [h1]
  simp

theorem lookupFd_fresh (hs : List (Fd × NsId)) (fd : Fd) (h : ∀ x ∈ hs, x.1 ≠ fd) :
    lookupFd hs fd = none := by
  induction hs with
  | nil => rfl
  | cons a t ih =>
    have ha : a.1 ≠ fd := h a (List.mem_cons_self _ _)
    simp only [lookupFd, ha, if_false]
    exact ih (fun x hx => h x (List.mem_cons_of_mem _ hx))

theorem lookupFd_append_fresh (hs : List (Fd × NsId)) (ns : NsId) :
    lookupFd (hs ++ [(freshFd hs, ns)]) (freshFd hs) = some ns := by
  have key : ∀ (l : List (Fd × NsId)) (fd : Fd), (∀ x ∈ l, x.1 ≠ fd) →
      lookupFd (l ++ [(fd, ns)]) fd = some ns := by
    intro l fd
    induction l with
    | nil => intro _; simp [lookupFd]
    | cons a t ih =>
      intro h
      have ha : a.1 ≠ fd := h a (List.mem_cons_self _ _)
      simp only [List.cons_append, lookupFd, ha, if_false]
      exact ih (fun x hx => h x (List.mem_cons_of_mem _ hx))
  exact key hs _ (fun x hx => Nat.ne_of_lt (lt_freshFd hs x hx))

theorem osOpen_error (env : Env) (p : String) (w : World) (e : Error)
    (h : env.nsOfPath p = .error e) :
    osOpen env p w = (.error e, w.note (.openNs p) (some e)) := by
  simp [osOpen, h]

theorem osOpen_ok (env : Env) (p : String) (w : World) (ns : NsId)
    (h : env.nsOfPath p = .ok ns) :
    osOpen env p w = (.ok (freshFd w.handles),
      ({ w with handles := w.handles ++ [(freshFd w.handles, ns)] }).note (.openNs p) none) := by
  simp [osOpen, h]

theorem cmdAdd_handles_eq (env : Env) (args : CmdArgs) (w : World) :
    (cmdAdd env args w).2.handles = w.handles := by
  unfold cmdAdd; dsimp only
  split
  · simp
  · cases hp : env.nsOfPath args.Netns with
    | error e => simp [osOpen_error _ _ _ _ hp]
    | ok ns =>
      simp only [osOpen_ok _ _ _ _ hp, osClose, cmdAddOpened_handles, note_handles]
      exact filter_fresh w.handles ns

/-! ## The runs of `cmdAdd` -/

@[simp] theorem osClose_links (fd : Fd) (w : World) : (osClose fd w).links = w.links := rfl
@[simp] theorem osClose_allocs (fd : Fd) (w : World) : (osClose fd w).allocs = w.allocs := rfl
@[simp] theorem osClose_masq (fd : Fd) (w : World) : (osClose fd w).masq = w.masq := rfl
@[simp] theorem osClose_stdout (fd : Fd) (w : World) : (osClose fd w).stdout = w.stdout := rfl
@[simp] theorem osClose_curNs (fd : Fd) (w : World) : (osClose fd w).curNs = w.curNs := rfl

theorem keepsCreated_intro (w w' : World) (ns : NsId) (tmp ifName name : String) (d : Device)
    (hfree : w.links ns tmp = none) (hn : name = tmp ∨ name = ifName)
    (h : w'.links ns name = some d) (hi : d.index = w.nextIndex) :
    w.keepsCreated w' ns tmp ifName :=
  ⟨hfree, name, d, hn, h, hi⟩

theorem cmdAddMasq_run (env : Env) (args : CmdArgs) (w : World) (n : NetConf) (ns : NsId)
    (tmp : String) (m : Device) (res : Result) (ip4 : IPConfig)
    (hload : loadConf env args.StdinData = .ok n) (hns : env.nsOfPath args.Netns = .ok ns)
    (hrand : env.randomVethName = .ok tmp) (hmode : (modeFromString n.Mode).2 = none)
    (hmaster : w.links w.curNs n.Master = some m)
    (hexec : env.execAdd n.IPAMType args.StdinData = .ok res) (hip4 : res.IP4 = some ip4)
    (henter : env.enterFault = none) (hleave : env.leaveFault = none)
    (hfree : w.links ns tmp = none) (wk : World)
    (htr : wk.trace = w.trace ++
      [⟨.loadConf args.StdinData, none⟩, ⟨.openNs args.Netns, none⟩,
       ⟨.randomVethName, none⟩, ⟨.modeFromString n.Mode, none⟩,
       ⟨.lookupMaster n.Master, none⟩,
       ⟨.linkAdd (addRequest n tmp m.index (freshFd w.handles)), none⟩,
       ⟨.execAdd n.IPAMType args.StdinData, none⟩, ⟨.checkIP4, none⟩,
       ⟨.enterNs (freshFd w.handles), none⟩, ⟨.renameLink tmp args.IfName, none⟩,
       ⟨.configureIface args.IfName res, none⟩, ⟨.leaveNs, none⟩])
    (hlk : ∀ ns' name', wk.links ns' name' =
        if ns' = ns ∧ name' = args.IfName then some (addedDevice w n m.index ip4)
        else if ns' = ns ∧ name' = tmp then none else w.links ns' name')
    (hal : wk.allocs = w.allocs ++ [Alloc.mk n.IPAMType args.StdinData res])
    (hmq : wk.masq = w.masq) (hso : wk.stdout = w.stdout) :
    AddRun env args w (cmdAddMasq env n res ip4 wk).1
      (osClose (freshFd w.handles) (cmdAddMasq env n res ip4 wk).2) := by
  have hdev : ∀ w' : World, w'.links = wk.links → w.keepsCreated w' ns tmp args.IfName := by
    intro w' hw'
    refine ⟨hfree, args.IfName, addedDevice w n m.index ip4, Or.inr rfl, ?_, rfl⟩
    rw [hw', hlk]; simp
  unfold cmdAddMasq
  by_cases hflag : n.IPMasq = true
  · simp only [hflag, if_true, SetupIPMasq_fst]
    cases hmasq : env.setupIPMasqFault with
    | some e =>
      refine AddRun.masqFail _ n ns tmp m res ip4 e hload hns hrand hmode hmaster hexec hip4
        (hdev _ ?_) ?_ henter hleave hflag hmasq ?_
      · simp [SetupIPMasq, hmasq]
      · simp [SetupIPMasq, hmasq, hal]
      · simp [SetupIPMasq, hmasq, htr]
    | none =>
      simp only [PrintResult_fst]
      cases hprint : env.printResultFault with
      | some e =>
        refine AddRun.printFail _ n ns tmp m res ip4 e hload hns hrand hmode hmaster hexec hip4
          (hdev _ ?_) ?_ henter hleave (fun _ => hmasq) hprint ?_
        · simp [SetupIPMasq, hmasq, PrintResult, hprint]
        · simp [SetupIPMasq, hmasq, PrintResult, hprint, hal]
        · simp [SetupIPMasq, hmasq, PrintResult, hprint, htr, hflag]
      | none =>
        refine AddRun.ok _ n ns tmp m res ip4 hload hns hrand hmode hmaster hexec hip4
          (hdev _ ?_) ?_ henter hleave (fun _ => hmasq) hprint hfree ?_ ?_ ?_ ?_
        · simp [SetupIPMasq, hmasq, PrintResult, hprint]
        · simp [SetupIPMasq, hmasq, PrintResult, hprint, hal]
        · intro ns' name'
          simp [SetupIPMasq, hmasq, PrintResult, hprint, hlk]
        · simp [SetupIPMasq, hmasq, PrintResult, hprint, hmq, hflag]
        · simp [SetupIPMasq, hmasq, PrintResult, hprint, hso]
        · simp [SetupIPMasq, hmasq, PrintResult, hprint, htr, hflag]
  · have hflag' : n.IPMasq = false := by simpa using hflag
    simp only [hflag', Bool.false_eq_true, if_false, PrintResult_fst]
    cases hprint : env.printResultFault with
    | some e =>
      refine AddRun.printFail _ n ns tmp m res ip4 e hload hns hrand hmode hmaster hexec hip4
        (hdev _ ?_) ?_ henter hleave (fun h => absurd h hflag) hprint ?_
      · simp [PrintResult, hprint]
      · simp [PrintResult, hprint, hal]
      · simp [PrintResult, hprint, htr, hflag']
    | none =>
      refine AddRun.ok _ n ns tmp m res ip4 hload hns hrand hmode hmaster hexec hip4
        (hdev _ ?_) ?_ henter hleave (fun h => absurd h hflag) hprint hfree ?_ ?_ ?_ ?_
      · simp [PrintResult, hprint]
      · simp [PrintResult, hprint, hal]
      · intro ns' name'
        simp [PrintResult, hprint, hlk]
      · simp [PrintResult, hprint, hmq, hflag']
      · simp [PrintResult, hprint, hso]
      · simp [PrintResult, hprint, htr, hflag']

theorem WithNetNS_enter_fail (env : Env) (fd : Fd) (f : World → Option Error × World)
    (w : World) (ns : NsId) (e : Error) (hl : lookupFd w.handles fd = some ns)
    (he : env.enterFault = some e) :
    WithNetNS env fd f w = (some e, w.note (.enterNs fd) (some e)) := by
  simp [WithNetNS, hl, he]

theorem WithNetNS_body_fail (env : Env) (fd : Fd) (f : World → Option Error × World)
    (w : World) (ns : NsId) (e : Error) (w7 : World)
    (hw7 : w7 = ({ w with curNs := ns }).note (.enterNs fd) none)
    (hl : lookupFd w.handles fd = some ns) (he : env.enterFault = none)
    (hf : (f w7).1 = some e) :
    WithNetNS env fd f w = (some e, (f w7).2) := by
  subst hw7
  simp only [WithNetNS, hl, he, hf]

theorem WithNetNS_leave_fail (env : Env) (fd : Fd) (f : World → Option Error × World)
    (w : World) (ns : NsId) (e : Error) (w7 : World)
    (hw7 : w7 = ({ w with curNs := ns }).note (.enterNs fd) none)
    (hl : lookupFd w.handles fd = some ns) (he : env.enterFault = none)
    (hf : (f w7).1 = none) (hv : env.leaveFault = some e) :
    WithNetNS env fd f w = (some e, (f w7).2.note .leaveNs (some e)) := by
  subst hw7
  simp only [WithNetNS, hl, he, hf, hv]

theorem WithNetNS_ok (env : Env) (fd : Fd) (f : World → Option Error × World)
    (w : World) (ns : NsId) (w7 : World)
    (hw7 : w7 = ({ w with curNs := ns }).note (.enterNs fd) none)
    (hl : lookupFd w.handles fd = some ns) (he : env.enterFault = none)
    (hf : (f w7).1 = none) (hv : env.leaveFault = none) :
    WithNetNS env fd f w = (none, ({ (f w7).2 with curNs := w.curNs }).note .leaveNs none) := by
  subst hw7
  simp only [WithNetNS, hl, he, hf, hv]

theorem cmdAddCommit_run (env : Env) (args : CmdArgs) (w : World) (n : NetConf) (ns : NsId)
    (tmp : String) (m : Device) (res : Result) (ip4 : IPConfig)
    (hload : loadConf env args.StdinData = .ok n) (hns : env.nsOfPath args.Netns = .ok ns)
    (hrand : env.randomVethName = .ok tmp) (hmode : (modeFromString n.Mode).2 = none)
    (hmaster : w.links w.curNs n.Master = some m)
    (hexec : env.execAdd n.IPAMType args.StdinData = .ok res) (hip4 : res.IP4 = some ip4)
    (hfree : w.links ns tmp = none) (wk : World)
    (htr : wk.trace = w.trace ++
      [⟨.loadConf args.StdinData, none⟩, ⟨.openNs args.Netns, none⟩,
       ⟨.randomVethName, none⟩, ⟨.modeFromString n.Mode, none⟩,
       ⟨.lookupMaster n.Master, none⟩,
       ⟨.linkAdd (addRequest n tmp m.index (freshFd w.handles)), none⟩,
       ⟨.execAdd n.IPAMType args.StdinData, none⟩, ⟨.checkIP4, none⟩])
    (hlk : wk.links = setLink w.links ns tmp
      (some (Device.mk w.nextIndex n.MTU m.index (some (modeFromString n.Mode).1) false [] [])))
    (hfd : lookupFd wk.handles (freshFd w.handles) = some ns)
    (hal : wk.allocs = w.allocs ++ [Alloc.mk n.IPAMType args.StdinData res])
    (hmq : wk.masq = w.masq) (hso : wk.stdout = w.stdout) :
    AddRun env args w (cmdAddCommit env args n (freshFd w.handles) tmp res ip4 wk).1
      (osClose (freshFd w.handles)
        (cmdAddCommit env args n (freshFd w.handles) tmp res ip4 wk).2) := by
  have hd0 : wk.links ns tmp =
      some (Device.mk w.nextIndex n.MTU m.index (some (modeFromString n.Mode).1) false [] []) := by
    rw [hlk]; simp [setLink]
  have hdev0 : ∀ w' : World, w'.links ns tmp =
      some (Device.mk w.nextIndex n.MTU m.index (some (modeFromString n.Mode).1) false [] []) →
      w.keepsCreated w' ns tmp args.IfName := fun w' h => ⟨hfree, tmp, _, Or.inl rfl, h, rfl⟩
  cases henter : env.enterFault with
  | some e =>
    have hres : cmdAddCommit env args n (freshFd w.handles) tmp res ip4 wk =
        (some e, wk.note (.enterNs (freshFd w.handles)) (some e)) := by
      simp only [cmdAddCommit, WithNetNS_enter_fail env _ _ wk ns e hfd henter]
    rw [hres]
    refine AddRun.enterFail _ n ns tmp m res ip4 e hload hns hrand hmode hmaster hexec hip4
      (hdev0 _ ?_) ?_ henter ?_
    · simpa using hd0
    · simp [hal]
    · simp [htr]
  | none =>
    obtain ⟨w7, hw7⟩ : ∃ w7, w7 = ({ wk with curNs := ns }).note
        (.enterNs (freshFd w.handles)) none := ⟨_, rfl⟩
    have h7l : w7.links = wk.links := by rw [hw7]; rfl
    have h7c : w7.curNs = ns := by rw [hw7]; rfl
    have h7t : w7.trace = wk.trace ++ [⟨.enterNs (freshFd w.handles), none⟩] := by rw [hw7]; rfl
    have h7a : w7.allocs = wk.allocs := by rw [hw7]; rfl
    have h7m : w7.masq = wk.masq := by rw [hw7]; rfl
    have h7s : w7.stdout = wk.stdout := by rw [hw7]; rfl
    cases hrn : (renameLink env tmp args.IfName w7).1 with
    | some e =>
      have hf : cmdAddInNs env args tmp res w7 =
          (some (.wrapf "failed to rename ipvlan to %q: %v" [.str args.IfName] e),
            (renameLink env tmp args.IfName w7).2) := by
        simp [cmdAddInNs, hrn]
      have hres : cmdAddCommit env args n (freshFd w.handles) tmp res ip4 wk =
          (some (.wrapf "failed to rename ipvlan to %q: %v" [.str args.IfName] e),
            (renameLink env tmp args.IfName w7).2) := by
        simp only [cmdAddCommit,
          WithNetNS_body_fail env _ (cmdAddInNs env args tmp res) wk ns _ w7 hw7 hfd henter
            (by rw [hf]), hf]
      rw [hres]
      refine AddRun.renameFail _ n ns tmp m res ip4 e hload hns hrand hmode hmaster hexec hip4
        (hdev0 _ ?_) ?_ henter ?_
      · simp only [osClose_links, renameLink_fail_links _ _ _ _ e hrn, h7l]
        exact hd0
      · simp [h7a, hal]
      · simp [hrn, h7t, htr]
    | none =>
      obtain ⟨d, hd, hrl⟩ := renameLink_ok env tmp args.IfName w7 hrn
      rw [h7c, h7l, hd0] at hd
      have hdd : d = Device.mk w.nextIndex n.MTU m.index (some (modeFromString n.Mode).1)
          false [] [] := (Option.some.inj hd).symm
      subst hdd
      rw [h7c] at hrl
      obtain ⟨w8, hw8⟩ : ∃ w8, w8 = (renameLink env tmp args.IfName w7).2 := ⟨_, rfl⟩
      have h8c : w8.curNs = ns := by rw [hw8]; simp [h7c]
      have h8t : w8.trace = wk.trace ++ [⟨.enterNs (freshFd w.handles), none⟩,
          ⟨.renameLink tmp args.IfName, none⟩] := by rw [hw8]; simp [hrn, h7t]
      have h8a : w8.allocs = wk.allocs := by rw [hw8]; simp [h7a]
      have h8m : w8.masq = wk.masq := by rw [hw8]; simp [h7m]
      have h8s : w8.stdout = wk.stdout := by rw [hw8]; simp [h7s]
      rw [← hw8] at hrl
      have h8d : w8.links ns args.IfName =
          some (Device.mk w.nextIndex n.MTU m.index (some (modeFromString n.Mode).1)
            false [] []) := by
        rw [hrl]; simp
      cases hcf : (ConfigureIface env args.IfName res w8).1 with
      | some e =>
        have hf : cmdAddInNs env args tmp res w7 =
            (some e, (ConfigureIface env args.IfName res w8).2) := by
          simp only [cmdAddInNs, hrn, ← hw8]
          exact Prod.ext hcf rfl
        have hres : cmdAddCommit env args n (freshFd w.handles) tmp res ip4 wk =
            (some e, (ConfigureIface env args.IfName res w8).2) := by
          simp only [cmdAddCommit,
            WithNetNS_body_fail env _ (cmdAddInNs env args tmp res) wk ns _ w7 hw7 hfd henter
            (by rw [hf]), hf]
        rw [hres]
        refine AddRun.configureFail _ n ns tmp m res ip4 e hload hns hrand hmode hmaster hexec
          hip4 (keepsCreated_intro w _ ns tmp args.IfName args.IfName
            (Device.mk w.nextIndex n.MTU m.index (some (modeFromString n.Mode).1) false [] [])
            hfree (Or.inr rfl) ?_ rfl) ?_ henter ?_
        · simp only [osClose_links, ConfigureIface_fail_links _ _ _ _ e hcf]
          exact h8d
        · simp [h8a, hal]
        · simp [hcf, h8t, htr]
      | none =>
        obtain ⟨d', ip4', hd', hi', hcl⟩ := ConfigureIface_ok env args.IfName res w8 hcf
        rw [h8c, h8d] at hd'
        have hdd : d' = Device.mk w.nextIndex n.MTU m.index (some (modeFromString n.Mode).1)
            false [] [] := (Option.some.inj hd').symm
        subst hdd
        rw [hip4] at hi'
        have hii : ip4 = ip4' := Option.some.inj hi'
        subst hii
        rw [h8c] at hcl
        obtain ⟨w9, hw9⟩ : ∃ w9, w9 = (ConfigureIface env args.IfName res w8).2 := ⟨_, rfl⟩
        have h9t : w9.trace = wk.trace ++ [⟨.enterNs (freshFd w.handles), none⟩,
            ⟨.renameLink tmp args.IfName, none⟩, ⟨.configureIface args.IfName res, none⟩] := by
          rw [hw9]; simp [hcf, h8t]
        have h9a : w9.allocs = wk.allocs := by rw [hw9]; simp [h8a]
        have h9m : w9.masq = wk.masq := by rw [hw9]; simp [h8m]
        have h9s : w9.stdout = wk.stdout := by rw [hw9]; simp [h8s]
        rw [← hw9] at hcl
        have hf : cmdAddInNs env args tmp res w7 = (none, w9) := by
          rw [hw9]
          simp only [cmdAddInNs, hrn, ← hw8]
          exact Prod.ext hcf rfl
        have h9l : ∀ ns' name', w9.links ns' name' =
            if ns' = ns ∧ name' = args.IfName then some (addedDevice w n m.index ip4)
            else if ns' = ns ∧ name' = tmp then none else w.links ns' name' := by
          intro ns' name'
          rw [hcl, setLink_apply, hrl, h7l, hlk, setLink_apply]
          by_cases h1 : ns' = ns ∧ name' = args.IfName
          · simp [h1, addedDevice]
          · by_cases h2 : ns' = ns ∧ name' = tmp
            · obtain ⟨hn, ht⟩ := h2
              subst hn ht
              have h3 : ¬ name' = args.IfName := fun h => h1 ⟨rfl, h⟩
              simp [h3]
            · simp [h1, h2]
        cases hleave : env.leaveFault with
        | some e =>
          have hres : cmdAddCommit env args n (freshFd w.handles) tmp res ip4 wk =
              (some e, w9.note .leaveNs (some e)) := by
            simp only [cmdAddCommit,
              WithNetNS_leave_fail env _ (cmdAddInNs env args tmp res) wk ns _ w7 hw7 hfd henter
                (by rw [hf]) hleave, hf]
          rw [hres]
          refine AddRun.leaveFail _ n ns tmp m res ip4 e hload hns hrand hmode hmaster hexec
            hip4 (keepsCreated_intro w _ ns tmp args.IfName args.IfName
              (addedDevice w n m.index ip4) hfree (Or.inr rfl) ?_ rfl) ?_
            henter hleave ?_
          · simp only [osClose_links, note_links, h9l]
            simp
          · simp [h9a, hal]
          · simp [h9t, htr]
        | none =>
          have hres : cmdAddCommit env args n (freshFd w.handles) tmp res ip4 wk =
              cmdAddMasq env n res ip4 (({ w9 with curNs := wk.curNs }).note .leaveNs none) := by
            simp only [cmdAddCommit,
              WithNetNS_ok env _ (cmdAddInNs env args tmp res) wk ns w7 hw7 hfd henter
                (by rw [hf]) hleave, hf]
          rw [hres]
          refine cmdAddMasq_run env args w n ns tmp m res ip4 hload hns hrand hmode hmaster hexec
            hip4 henter hleave hfree _ ?_ ?_ ?_ ?_ ?_
          · simp [h9t, htr]
          · intro ns' name'
            simp only [note_links]
            exact h9l ns' name'
          · simp [h9a, hal]
          · simp [h9m, hmq]
          · simp [h9s, hso]

theorem cmdAddAllocate_run (env : Env) (args : CmdArgs) (w : World) (n : NetConf) (ns : NsId)
    (tmp : String) (m : Device)
    (hload : loadConf env args.StdinData = .ok n) (hns : env.nsOfPath args.Netns = .ok ns)
    (hrand : env.randomVethName = .ok tmp) (hmode : (modeFromString n.Mode).2 = none)
    (hmaster : w.links w.curNs n.Master = some m)
    (hfree : w.links ns tmp = none) (wk : World)
    (htr : wk.trace = w.trace ++
      [⟨.loadConf args.StdinData, none⟩, ⟨.openNs args.Netns, none⟩,
       ⟨.randomVethName, none⟩, ⟨.modeFromString n.Mode, none⟩,
       ⟨.lookupMaster n.Master, none⟩,
       ⟨.linkAdd (addRequest n tmp m.index (freshFd w.handles)), none⟩])
    (hlk : wk.links = setLink w.links ns tmp
      (some (Device.mk w.nextIndex n.MTU m.index (some (modeFromString n.Mode).1) false [] [])))
    (hfd : lookupFd wk.handles (freshFd w.handles) = some ns)
    (hal : wk.allocs = w.allocs) (hmq : wk.masq = w.masq) (hso : wk.stdout = w.stdout) :
    AddRun env args w (cmdAddAllocate env args n (freshFd w.handles) tmp wk).1
      (osClose (freshFd w.handles) (cmdAddAllocate env args n (freshFd w.handles) tmp wk).2) := by
  have hd0 : wk.links ns tmp =
      some (Device.mk w.nextIndex n.MTU m.index (some (modeFromString n.Mode).1) false [] []) := by
    rw [hlk]; simp [setLink]
  cases hexec : env.execAdd n.IPAMType args.StdinData with
  | error e =>
    have hres : cmdAddAllocate env args n (freshFd w.handles) tmp wk =
        (some e, wk.note (.execAdd n.IPAMType args.StdinData) (some e)) := by
      simp [cmdAddAllocate, ExecAdd, hexec]
    rw [hres]
    refine AddRun.execFail _ n ns tmp m e hload hns hrand hmode hmaster hexec
      (keepsCreated_intro w _ ns tmp args.IfName tmp _ hfree (Or.inl rfl) hd0 rfl) ?_
      (by simp [hmq]) (by simp [hso])
    simp [htr]
  | ok res =>
    obtain ⟨w6, hw6⟩ : ∃ w6, w6 = ({ wk with allocs := wk.allocs ++
        [Alloc.mk n.IPAMType args.StdinData res] }).note
        (.execAdd n.IPAMType args.StdinData) none := ⟨_, rfl⟩
    have hex : ExecAdd env n.IPAMType args.StdinData wk = (.ok res, w6) := by
      rw [hw6]; simp [ExecAdd, hexec]
    have h6l : w6.links = wk.links := by rw [hw6]; rfl
    have h6h : w6.handles = wk.handles := by rw [hw6]; rfl
    have h6t : w6.trace = wk.trace ++ [⟨.execAdd n.IPAMType args.StdinData, none⟩] := by
      rw [hw6]; rfl
    have h6a : w6.allocs = wk.allocs ++ [Alloc.mk n.IPAMType args.StdinData res] := by
      rw [hw6]; rfl
    have h6m : w6.masq = wk.masq := by rw [hw6]; rfl
    have h6s : w6.stdout = wk.stdout := by rw [hw6]; rfl
    cases hip4 : res.IP4 with
    | none =>
      have hres : cmdAddAllocate env args n (freshFd w.handles) tmp wk =
          (some (.new "IPAM plugin returned missing IPv4 config"),
            w6.note .checkIP4 (some (.new "IPAM plugin returned missing IPv4 config"))) := by
        simp only [cmdAddAllocate, hex, hip4]
      rw [hres]
      refine AddRun.ip4Missing _ n ns tmp m res hload hns hrand hmode hmaster hexec hip4
        (keepsCreated_intro w _ ns tmp args.IfName tmp
          (Device.mk w.nextIndex n.MTU m.index (some (modeFromString n.Mode).1) false [] [])
          hfree (Or.inl rfl) ?_ rfl) ?_ ?_ (by simp [h6m, hmq]) (by simp [h6s, hso])
      · simpa [h6l] using hd0
      · simp [h6a, hal]
      · simp [h6t, htr]
    | some ip4 =>
      have hres : cmdAddAllocate env args n (freshFd w.handles) tmp wk =
          cmdAddCommit env args n (freshFd w.handles) tmp res ip4 (w6.note .checkIP4 none) := by
        simp only [cmdAddAllocate, hex, hip4]
      rw [hres]
      refine cmdAddCommit_run env args w n ns tmp m res ip4 hload hns hrand hmode hmaster hexec
        hip4 hfree _ ?_ ?_ ?_ ?_ ?_ ?_
      · simp [h6t, htr]
      · simp [h6l, hlk]
      · simpa [h6h] using hfd
      · simp [h6a, hal]
      · simp [h6m, hmq]
      · simp [h6s, hso]

theorem cmdAddCreate_run (env : Env) (args : CmdArgs) (w : World) (n : NetConf) (ns : NsId)
    (tmp : String)
    (hload : loadConf env args.StdinData = .ok n) (hns : env.nsOfPath args.Netns = .ok ns)
    (hrand : env.randomVethName = .ok tmp) (wk : World)
    (htr : wk.trace = w.trace ++
      [⟨.loadConf args.StdinData, none⟩, ⟨.openNs args.Netns, none⟩,
       ⟨.randomVethName, none⟩])
    (hlk : wk.links = w.links) (hcur : wk.curNs = w.curNs) (hni : wk.nextIndex = w.nextIndex)
    (hfd : lookupFd wk.handles (freshFd w.handles) = some ns)
    (hal : wk.allocs = w.allocs) (hmq : wk.masq = w.masq) (hso : wk.stdout = w.stdout) :
    AddRun env args w (cmdAddCreate env args n (freshFd w.handles) tmp wk).1
      (osClose (freshFd w.handles) (cmdAddCreate env args n (freshFd w.handles) tmp wk).2) := by
  cases hmode : (modeFromString n.Mode).2 with
  | some e =>
    have hres : cmdAddCreate env args n (freshFd w.handles) tmp wk =
        (some e, wk.note (.modeFromString n.Mode) (some e)) := by
      simp [cmdAddCreate, createIpvlan, hmode]
    rw [hres]
    refine AddRun.modeFail _ n ns tmp e hload hns hrand hmode ?_ (by simp [hmq])
      (by simp [hso])
    simp [htr]
  | none =>
    cases hmaster : w.links w.curNs n.Master with
    | none =>
      have hlb : LinkByName n.Master wk = .error (.lib "Link not found") := by
        simp [LinkByName, hlk, hcur, hmaster]
      have hres : cmdAddCreate env args n (freshFd w.handles) tmp wk =
          (some (.wrapf "failed to lookup master %q: %v" [.str n.Master] (.lib "Link not found")),
            (wk.note (.modeFromString n.Mode) none).note (.lookupMaster n.Master)
              (some (.lib "Link not found"))) := by
        simp [cmdAddCreate, createIpvlan, hmode, hlb]
      rw [hres]
      refine AddRun.lookupFail _ n ns tmp hload hns hrand hmode hmaster ?_ (by simp [hmq])
        (by simp [hso])
      simp [htr]
    | some m =>
      have hlb : LinkByName n.Master wk =
          .ok (LinkAttrs.mk m.index m.mtu n.Master m.parent none) := by
        simp [LinkByName, hlk, hcur, hmaster]
      obtain ⟨w5, hw5⟩ : ∃ w5, w5 = (wk.note (.modeFromString n.Mode) none).note
          (.lookupMaster n.Master) none := ⟨_, rfl⟩
      have h5t : w5.trace = wk.trace ++ [⟨.modeFromString n.Mode, none⟩,
          ⟨.lookupMaster n.Master, none⟩] := by rw [hw5]; simp
      have h5l : w5.links = wk.links := by rw [hw5]; rfl
      have h5h : w5.handles = wk.handles := by rw [hw5]; rfl
      have h5i : w5.nextIndex = wk.nextIndex := by rw [hw5]; rfl
      have h5a : w5.allocs = wk.allocs := by rw [hw5]; rfl
      have h5m : w5.masq = wk.masq := by rw [hw5]; rfl
      have h5s : w5.stdout = wk.stdout := by rw [hw5]; rfl
      have hcr : createIpvlan env n tmp (freshFd w.handles) wk =
          match (LinkAdd env (addRequest n tmp m.index (freshFd w.handles)) w5).1 with
          | some err => (some (.wrapf "failed to create ipvlan: %v" [] err),
              (LinkAdd env (addRequest n tmp m.index (freshFd w.handles)) w5).2)
          | none => (none, (LinkAdd env (addRequest n tmp m.index (freshFd w.handles)) w5).2) := by
        rw [hw5]
        simp only [createIpvlan, hmode, hlb, addRequest]
      cases hadd : (LinkAdd env (addRequest n tmp m.index (freshFd w.handles)) w5).1 with
      | some e =>
        have hres : cmdAddCreate env args n (freshFd w.handles) tmp wk =
            (some (.wrapf "failed to create ipvlan: %v" [] e),
              (LinkAdd env (addRequest n tmp m.index (freshFd w.handles)) w5).2) := by
          simp only [cmdAddCreate, hcr, hadd]
        rw [hres]
        refine AddRun.addFail _ n ns tmp m e hload hns hrand hmode hmaster ?_
          (by simp [h5m, hmq]) (by simp [h5s, hso])
        simp [hadd, h5t, htr]
      | none =>
        have hres : cmdAddCreate env args n (freshFd w.handles) tmp wk =
            cmdAddAllocate env args n (freshFd w.handles) tmp
              (LinkAdd env (addRequest n tmp m.index (freshFd w.handles)) w5).2 := by
          simp only [cmdAddCreate, hcr, hadd]
        rw [hres]
        obtain ⟨t, ht, hfr, hll⟩ := LinkAdd_ok env _ w5 hadd
        have htt : t = ns := by
          simp only [targetOf, addRequest, h5h, hfd] at ht
          exact (Option.some.inj ht).symm
        subst htt
        simp only [addRequest, h5l, hlk, h5i, hni] at hfr hll
        refine cmdAddAllocate_run env args w n t tmp m hload hns hrand hmode hmaster hfr _
          ?_ ?_ ?_ ?_ ?_ ?_
        · simp [hadd, h5t, htr]
        · exact hll
        · simpa [h5h] using hfd
        · simp [h5a, hal]
        · simp [h5m, hmq]
        · simp [h5s, hso]

/-- Every Add goes one of the ways of `AddRun`. -/
theorem cmdAdd_run (env : Env) (args : CmdArgs) (w : World) :
    AddRun env args w (cmdAdd env args w).1 (cmdAdd env args w).2 := by
  cases hload : loadConf env args.StdinData with
  | error e =>
    have hres : cmdAdd env args w = (some e, w.note (.loadConf args.StdinData) (some e)) := by
      simp [cmdAdd, hload]
    rw [hres]
    exact AddRun.loadFail _ e hload rfl rfl rfl
  | ok n =>
    cases hns : env.nsOfPath args.Netns with
    | error e =>
      have hres : cmdAdd env args w =
          (some (.wrapf "failed to open netns %q: %v" [.nilFile] e),
            (w.note (.loadConf args.StdinData) none).note (.openNs args.Netns) (some e)) := by
        simp [cmdAdd, hload, osOpen_error _ _ _ _ hns]
      rw [hres]
      refine AddRun.openFail _ n e hload hns ?_ rfl rfl
      simp
    | ok ns =>
      obtain ⟨wo, hwo⟩ : ∃ wo, wo = ({ w.note (.loadConf args.StdinData) none with
          handles := w.handles ++ [(freshFd w.handles, ns)] }).note (.openNs args.Netns) none :=
        ⟨_, rfl⟩
      have hop : osOpen env args.Netns (w.note (.loadConf args.StdinData) none) =
          (.ok (freshFd w.handles), wo) := by
        rw [hwo, osOpen_ok _ _ _ _ hns]; rfl
      have hot : wo.trace = w.trace ++ [⟨.loadConf args.StdinData, none⟩,
          ⟨.openNs args.Netns, none⟩] := by rw [hwo]; simp
      have hol : wo.links = w.links := by rw [hwo]; rfl
      have hoc : wo.curNs = w.curNs := by rw [hwo]; rfl
      have hoi : wo.nextIndex = w.nextIndex := by rw [hwo]; rfl
      have hoa : wo.allocs = w.allocs := by rw [hwo]; rfl
      have hom : wo.masq = w.masq := by rw [hwo]; rfl
      have hos : wo.stdout = w.stdout := by rw [hwo]; rfl
      have hoh : lookupFd wo.handles (freshFd w.handles) = some ns := by
        rw [hwo]; exact lookupFd_append_fresh w.handles ns
      have hres : cmdAdd env args w =
          ((cmdAddOpened env args n (freshFd w.handles) wo).1,
            osClose (freshFd w.handles) (cmdAddOpened env args n (freshFd w.handles) wo).2) := by
        simp only [cmdAdd, hload, hop]
      rw [hres]
      cases hrand : env.randomVethName with
      | error e =>
        have hro : cmdAddOpened env args n (freshFd w.handles) wo =
            (some e, wo.note .randomVethName (some e)) := by
          simp [cmdAddOpened_eq, hrand, errOf]
        rw [hro]
        refine AddRun.randFail _ n ns e hload hns hrand ?_ (by simp [hom]) (by simp [hos])
        simp [hot]
      | ok tmp =>
        have hro : cmdAddOpened env args n (freshFd w.handles) wo =
            cmdAddCreate env args n (freshFd w.handles) tmp (wo.note .randomVethName none) := by
          simp [cmdAddOpened_eq, hrand, errOf]
        rw [hro]
        refine cmdAddCreate_run env args w n ns tmp hload hns hrand _ ?_ ?_ ?_ ?_ ?_ ?_ ?_ ?_
        · simp [hot]
        · simp [hol]
        · simp [hoc]
        · simp [hoi]
        · simpa using hoh
        · simp [hoa]
        · simp [hom]
        · simp [hos]

/-! ## The runs of `cmdDel` -/

/-- Every Delete goes one of the ways of `DelRun`. -/
theorem cmdDel_run (env : Env) (args : CmdArgs) (w : World) :
    DelRun env args w (cmdDel env args w).1 (cmdDel env args w).2 := by
  cases hload : loadConf env args.StdinData with
  | error e =>
    have hres : cmdDel env args w = (some e, w.note (.loadConf args.StdinData) (some e)) := by
      simp [cmdDel, hload]
    rw [hres]
    exact DelRun.loadFail _ e hload rfl rfl rfl
  | ok n =>
    cases hrel : env.execDel n.IPAMType args.StdinData with
    | some e =>
      have hres : cmdDel env args w = (some e,
          (w.note (.loadConf args.StdinData) none).note
            (.execDel n.IPAMType args.StdinData) (some e)) := by
        simp [cmdDel, hload, ExecDel, hrel]
      rw [hres]
      exact DelRun.releaseFail _ n e hload hrel (by simp) rfl rfl
    | none =>
      obtain ⟨w2, hw2⟩ : ∃ w2, w2 = (ExecDel env n.IPAMType args.StdinData
          (w.note (.loadConf args.StdinData) none)).2 := ⟨_, rfl⟩
      have h2t : w2.trace = w.trace ++ [⟨.loadConf args.StdinData, none⟩,
          ⟨.execDel n.IPAMType args.StdinData, none⟩] := by rw [hw2]; simp [hrel]
      have h2l : w2.links = w.links := by rw [hw2]; simp [ExecDel, hrel]
      have h2h : w2.handles = w.handles := by rw [hw2]; simp
      have h2c : w2.curNs = w.curNs := by rw [hw2]; simp [ExecDel, hrel]
      have h2a : w2.allocs = w.allocs.filter
          (fun a => ¬ (a.ipamType = n.IPAMType ∧ a.payload = args.StdinData)) := by
        rw [hw2]; simp [ExecDel, hrel]
      have hres : cmdDel env args w =
          WithNetNSPath env args.Netns (DelLinkByName env args.IfName) w2 := by
        rw [hw2]; simp only [cmdDel, hload, ExecDel_fst, hrel]
      rw [hres]
      cases hns : env.nsOfPath args.Netns with
      | error e =>
        have hres2 : WithNetNSPath env args.Netns (DelLinkByName env args.IfName) w2 =
            (some (.wrapf "Failed to open %v: %v" [.str args.Netns] e),
              w2.note (.openNs args.Netns) (some e)) := by
          simp only [WithNetNSPath, osOpen_error _ _ _ _ hns]
        rw [hres2]
        exact DelRun.openFail _ n e hload hrel hns (by simp [h2t]) (by simp [h2l])
      | ok ns =>
        obtain ⟨w3, hw3⟩ : ∃ w3, w3 = ({ w2 with handles := w2.handles ++
            [(freshFd w2.handles, ns)] }).note (.openNs args.Netns) none := ⟨_, rfl⟩
        have h3t : w3.trace = w2.trace ++ [⟨.openNs args.Netns, none⟩] := by rw [hw3]; rfl
        have h3l : w3.links = w2.links := by rw [hw3]; rfl
        have h3c : w3.curNs = w2.curNs := by rw [hw3]; rfl
        have h3a : w3.allocs = w2.allocs := by rw [hw3]; rfl
        have h3h : w3.handles = w2.handles ++ [(freshFd w2.handles, ns)] := by rw [hw3]; rfl
        have h3f : lookupFd w3.handles (freshFd w.handles) = some ns := by
          rw [h3h, h2h]; exact lookupFd_append_fresh w.handles ns
        have hres2 : WithNetNSPath env args.Netns (DelLinkByName env args.IfName) w2 =
            ((WithNetNS env (freshFd w.handles) (DelLinkByName env args.IfName) w3).1,
              osClose (freshFd w.handles)
                (WithNetNS env (freshFd w.handles) (DelLinkByName env args.IfName) w3).2) := by
          rw [hw3]
          simp only [WithNetNSPath, osOpen_ok _ _ _ _ hns, h2h]
        rw [hres2]
        cases henter : env.enterFault with
        | some e =>
          rw [WithNetNS_enter_fail env _ (DelLinkByName env args.IfName) w3 ns e h3f henter]
          exact DelRun.enterFail _ n ns e hload hrel hns henter (by simp [h3t, h2t])
            (by simp [h3l, h2l])
        | none =>
          obtain ⟨w4, hw4⟩ : ∃ w4, w4 = ({ w3 with curNs := ns }).note
              (.enterNs (freshFd w.handles)) none := ⟨_, rfl⟩
          have h4t : w4.trace = w3.trace ++ [⟨.enterNs (freshFd w.handles), none⟩] := by
            rw [hw4]; rfl
          have h4l : w4.links = w3.links := by rw [hw4]; rfl
          have h4c : w4.curNs = ns := by rw [hw4]; rfl
          have h4a : w4.allocs = w3.allocs := by rw [hw4]; rfl
          have h4h : w4.handles = w3.handles := by rw [hw4]; rfl
          cases hthere : w.links ns args.IfName with
          | none =>
            have hdl : DelLinkByName env args.IfName w4 =
                (some (.wrapf "failed to lookup %q: %v" [.str args.IfName] (.lib "Link not found")),
                  w4.note (.delLink args.IfName)
                    (some (.wrapf "failed to lookup %q: %v" [.str args.IfName]
                      (.lib "Link not found")))) := by
              simp [DelLinkByName, LinkByName, h4c, h4l, h3l, h2l, hthere]
            rw [WithNetNS_body_fail env _ (DelLinkByName env args.IfName) w3 ns _ w4 hw4 h3f
              henter (by rw [hdl]), hdl]
            exact DelRun.absent _ n ns hload hrel hns henter hthere
              (by simp [h4t, h3t, h2t]) (by simp [h4l, h3l, h2l])
          | some d =>
            have hlb : LinkByName args.IfName w4 =
                .ok (LinkAttrs.mk d.index d.mtu args.IfName d.parent none) := by
              simp [LinkByName, h4c, h4l, h3l, h2l, hthere]
            cases hdel : env.linkDelFault with
            | some e =>
              have hdl : DelLinkByName env args.IfName w4 =
                  (some (.wrapf "failed to delete %q: %v" [.str args.IfName] e),
                    w4.note (.delLink args.IfName)
                      (some (.wrapf "failed to delete %q: %v" [.str args.IfName] e))) := by
                simp [DelLinkByName, hlb, hdel]
              rw [WithNetNS_body_fail env _ (DelLinkByName env args.IfName) w3 ns _ w4 hw4 h3f
                henter (by rw [hdl]), hdl]
              exact DelRun.delFail _ n ns d e hload hrel hns henter hthere hdel
                (by simp [h4t, h3t, h2t]) (by simp [h4l, h3l, h2l])
            | none =>
              have hdl : DelLinkByName env args.IfName w4 =
                  (none, ({ w4 with links := setLink w4.links w4.curNs args.IfName none }).note
                    (.delLink args.IfName) none) := by
                simp [DelLinkByName, hlb, hdel]
              cases hleave : env.leaveFault with
              | some e =>
                rw [WithNetNS_leave_fail env _ (DelLinkByName env args.IfName) w3 ns _ w4 hw4 h3f
                  henter (by rw [hdl]) hleave, hdl]
                exact DelRun.leaveFail _ n ns d e hload hrel hns henter hthere hdel hleave
                  (by simp [h4t, h3t, h2t]) (by simp [h4l, h3l, h2l, h4c])
              | none =>
                rw [WithNetNS_ok env _ (DelLinkByName env args.IfName) w3 ns w4 hw4 h3f
                  henter (by rw [hdl]) hleave, hdl]
                refine DelRun.ok _ n ns d hload hrel hns henter hthere hdel hleave
                  (by simp [h4t, h3t, h2t]) (by simp [h4l, h3l, h2l, h4c])
                  (by simp [h4a, h3a, h2a]) ?_ (by simp [h3c, h2c])
                simp only [osClose, note_handles, h4h, h3h, h2h]
                exact filter_fresh w.handles ns

/-- What a Delete returns, the links it leaves and the outcomes of its steps
do not depend on the payload beyond the delegate's name and the delegate's
answer to the release. -/
theorem cmdDel_payload_irrelevant (env : Env) (args : CmdArgs) (w : World) (bytes2 : Bytes)
    (n n2 : NetConf)
    (hl : loadConf env args.StdinData = .ok n) (hl2 : loadConf env bytes2 = .ok n2)
    (ht : n2.IPAMType = n.IPAMType)
    (hdel : env.execDel n.IPAMType bytes2 = env.execDel n.IPAMType args.StdinData) :
    (cmdDel env { args with StdinData := bytes2 } w).1 = (cmdDel env args w).1 ∧
    (cmdDel env { args with StdinData := bytes2 } w).2.links = (cmdDel env args w).2.links ∧
    (cmdDel env { args with StdinData := bytes2 } w).2.trace.map (fun ev => (ev.op.step, ev.err))
      = (cmdDel env args w).2.trace.map (fun ev => (ev.op.step, ev.err)) := by
  have hr1 := cmdDel_run env args w
  have hr2 := cmdDel_run env { args with StdinData := bytes2 } w
  generalize cmdDel env args w = p1 at hr1 ⊢
  generalize cmdDel env { args with StdinData := bytes2 } w = p2 at hr2 ⊢
  obtain ⟨r1, w1⟩ := p1
  obtain ⟨r2, w2⟩ := p2
  dsimp only at hr1 hr2 ⊢
  cases hr1 <;> cases hr2 <;> simp_all [Op.step]

/-! ## The claims -/

/-- C1: `modeFromString` returns an error exactly for the strings other than
the empty string, "l2" and "l3"; the empty string and "l2" both give
`IPVLAN_MODE_L2` without error, "l3" gives `IPVLAN_MODE_L3` without error, and
the two modes differ. -/
theorem modeFromString_spec :
    (∀ s : String, (modeFromString s).2 ≠ none ↔ (s ≠ "" ∧ s ≠ "l2" ∧ s ≠ "l3")) ∧
    modeFromString "" = (IPVLAN_MODE_L2, none) ∧
    modeFromString "l2" = (IPVLAN_MODE_L2, none) ∧
    modeFromString "l3" = (IPVLAN_MODE_L3, none) ∧
    IPVLAN_MODE_L3 ≠ IPVLAN_MODE_L2 := by
  refine ⟨?_, ?_, ?_, ?_, ?_⟩
  · intro s
    unfold modeFromString
    by_cases h1 : s = ""
    · simp [h1]
    · by_cases h2 : s = "l2"
      · simp [h2]
      · by_cases h3 : s = "l3"
        · simp [h3]
        · simp [h1, h2, h3]
  · simp [modeFromString]
  · simp [modeFromString]
  · simp [modeFromString]
  · simp [IPVLAN_MODE_L2, IPVLAN_MODE_L3]

/-- C2: when the decoded payload has no `master` (the field is empty),
`loadConf` fails with the "master field is required" error, and `cmdAdd`
returns that very error having done nothing but the load: no namespace
opened, no name generated, no link touched, no delegate run. -/
theorem cmdAdd_missing_master (env : Env) (args : CmdArgs) (w : World) (n : NetConf)
    (hdec : env.unmarshal args.StdinData = .ok n) (hm : n.Master = "") :
    loadConf env args.StdinData = .error (.errorf
      "\"master\" field is required. It specifies the host interface name to virtualize" []) ∧
    cmdAdd env args w =
      (some (.errorf
        "\"master\" field is required. It specifies the host interface name to virtualize" []),
       { w with trace := w.trace ++ [⟨.loadConf args.StdinData, some (.errorf
        "\"master\" field is required. It specifies the host interface name to virtualize" [])⟩] }) := by
  have hl : loadConf env args.StdinData = .error (.errorf
      "\"master\" field is required. It specifies the host interface name to virtualize" []) := by
    simp [loadConf, hdec, hm]
  refine ⟨hl, ?_⟩
  simp [cmdAdd, hl, World.note]

/-- C9: for a recognised mode and a master present in the caller's
namespace, `createIpvlan` attempts exactly the mode resolution, the master
lookup and one link-add request, nothing else; the request carries the given
name, the configuration's MTU, the master's index as parent, the target
namespace handle and the resolved mode; `createIpvlan` returns no error
exactly when the request succeeds, and the device then stands in the
namespace behind the handle. When the master is absent it fails with the
lookup error that names the master, and no link-add is issued. -/
theorem createIpvlan_request (env : Env) (conf : NetConf) (ifName : String) (netns : Fd)
    (w : World) :
    (∀ d, (modeFromString conf.Mode).2 = none → w.links w.curNs conf.Master = some d →
      ∃ out,
        (createIpvlan env conf ifName netns w).2.trace = w.trace ++
          [⟨.modeFromString conf.Mode, none⟩, ⟨.lookupMaster conf.Master, none⟩,
           ⟨.linkAdd { attrs := { Index := 0, MTU := conf.MTU, Name := ifName,
                                  ParentIndex := d.index, Namespace := some netns },
                       Mode := (modeFromString conf.Mode).1 }, out⟩] ∧
        ((createIpvlan env conf ifName netns w).1 = none ↔ out = none) ∧
        (out = none → ∃ t, lookupFd w.handles netns = some t ∧
          (createIpvlan env conf ifName netns w).2.links t ifName =
            some { index := w.nextIndex, mtu := conf.MTU, parent := d.index,
                   ipvlan := some (modeFromString conf.Mode).1, up := false, addrs := [],
                   routes := [] })) ∧
    ((modeFromString conf.Mode).2 = none → w.links w.curNs conf.Master = none →
      (createIpvlan env conf ifName netns w).1 =
        some (.wrapf "failed to lookup master %q: %v" [.str conf.Master]
          (.lib "Link not found")) ∧
      (createIpvlan env conf ifName netns w).2.trace = w.trace ++
        [⟨.modeFromString conf.Mode, none⟩,
         ⟨.lookupMaster conf.Master, some (.lib "Link not found")⟩] ∧
      (createIpvlan env conf ifName netns w).2.links = w.links) := by
  constructor
  · intro d hmode hmaster
    have hl : LinkByName conf.Master w =
        .ok (LinkAttrs.mk d.index d.mtu conf.Master d.parent none) := by
      simp [LinkByName, hmaster]
    refine ⟨(LinkAdd env
      (IPVlan.mk (LinkAttrs.mk 0 conf.MTU ifName d.index (some netns)) (modeFromString conf.Mode).1)
      ((w.note (.modeFromString conf.Mode) none).note (.lookupMaster conf.Master) none)).1,
      ?_, ?_, ?_⟩
    · simp only [createIpvlan, hmode, hl]
      split <;> simp
    · simp only [createIpvlan, hmode, hl]
      split <;> simp [*]
    · intro hout
      simp only [createIpvlan, hmode, hl, hout]
      revert hout
      unfold LinkAdd targetOf
      simp only [note_handles, note_links]
      cases hfd : lookupFd w.handles netns with
      | none => simp
      | some t =>
        simp only []
        cases hex : w.links t ifName with
        | some _ => simp
        | none =>
          simp only []
          cases hf : env.linkAddFault with
          | some _ => simp
          | none => simp [setLink]
  · intro hmode hmaster
    have hl : LinkByName conf.Master w = .error (.lib "Link not found") := by
      simp [LinkByName, hmaster]
    simp [createIpvlan, hmode, hl]

/-- C9, witness: the scenario's configuration (mode "l3", MTU 1400, master
`eth0`) with the container namespace open on descriptor `0`, and the same on a
host without `eth0`. -/
theorem createIpvlan_request_witness :
    (((modeFromString conf0.Mode).2 = none ∧ wOpened.links wOpened.curNs conf0.Master = some eth0) ∧
      (∃ out,
        (createIpvlan env0 conf0 "veth1a2b3c4d" 0 wOpened).2.trace = wOpened.trace ++
          [⟨.modeFromString conf0.Mode, none⟩, ⟨.lookupMaster conf0.Master, none⟩,
           ⟨.linkAdd { attrs := { Index := 0, MTU := conf0.MTU, Name := "veth1a2b3c4d",
                                  ParentIndex := eth0.index, Namespace := some 0 },
                       Mode := (modeFromString conf0.Mode).1 }, out⟩] ∧
        ((createIpvlan env0 conf0 "veth1a2b3c4d" 0 wOpened).1 = none ↔ out = none) ∧
        (out = none → ∃ t, lookupFd wOpened.handles 0 = some t ∧
          (createIpvlan env0 conf0 "veth1a2b3c4d" 0 wOpened).2.links t "veth1a2b3c4d" =
            some { index := wOpened.nextIndex, mtu := conf0.MTU, parent := eth0.index,
                   ipvlan := some (modeFromString conf0.Mode).1, up := false, addrs := [],
                   routes := [] }))) ∧
    (((modeFromString conf0.Mode).2 = none ∧ wBare.links wBare.curNs conf0.Master = none) ∧
      ((createIpvlan env0 conf0 "veth1a2b3c4d" 0 wBare).1 =
        some (.wrapf "failed to lookup master %q: %v" [.str conf0.Master]
          (.lib "Link not found")) ∧
      (createIpvlan env0 conf0 "veth1a2b3c4d" 0 wBare).2.trace = wBare.trace ++
        [⟨.modeFromString conf0.Mode, none⟩,
         ⟨.lookupMaster conf0.Master, some (.lib "Link not found")⟩] ∧
      (createIpvlan env0 conf0 "veth1a2b3c4d" 0 wBare).2.links = wBare.links)) :=
  ⟨⟨⟨by decide, by decide⟩,
      (createIpvlan_request env0 conf0 "veth1a2b3c4d" 0 wOpened).1 eth0 (by decide) (by decide)⟩,
    ⟨⟨by decide, by decide⟩,
      (createIpvlan_request env0 conf0 "veth1a2b3c4d" 0 wBare).2 (by decide) (by decide)⟩⟩

/-- C10: the mode string is checked on the Add path only. `loadConf` accepts
every payload with a non-empty master, whatever its mode. `cmdDel` never
resolves the mode: two payloads that differ in the mode alone, for which the
delegate release has the same outcome, make `cmdDel` return the same error,
attempt the same steps with the same outcomes and leave the same links. On
the Add path, with the namespace opened and the temporary name generated, an
unrecognised mode is the fourth step, it fails with the unknown-mode error,
and no master lookup, link creation or delegate call has happened. -/
theorem mode_checked_on_add_only (env : Env) (args : CmdArgs) (w : World) (n : NetConf) :
    (env.unmarshal args.StdinData = .ok n → n.Master ≠ "" →
      loadConf env args.StdinData = .ok n) ∧
    (∀ (bytes2 : Bytes) (mode2 : String),
      env.unmarshal args.StdinData = .ok n → n.Master ≠ "" →
      env.unmarshal bytes2 = .ok { n with Mode := mode2 } →
      env.execDel n.IPAMType bytes2 = env.execDel n.IPAMType args.StdinData →
      (cmdDel env { args with StdinData := bytes2 } w).1 = (cmdDel env args w).1 ∧
      (cmdDel env { args with StdinData := bytes2 } w).2.links = (cmdDel env args w).2.links ∧
      (cmdDel env { args with StdinData := bytes2 } w).2.trace.map (fun ev => (ev.op.step, ev.err))
        = (cmdDel env args w).2.trace.map (fun ev => (ev.op.step, ev.err)) ∧
      (∀ ev ∈ (cmdDel env args w).2.trace.drop w.trace.length,
        ev.op.step ≠ .modeFromString) ∧
      (env.execDel n.IPAMType args.StdinData = none →
        ⟨.execDel n.IPAMType args.StdinData, none⟩ ∈ (cmdDel env args w).2.trace ∧
        (∀ ns, env.nsOfPath args.Netns = .ok ns → env.enterFault = none →
          ∃ out, ⟨.delLink args.IfName, out⟩ ∈ (cmdDel env args w).2.trace))) ∧
    (∀ ns tmp e, loadConf env args.StdinData = .ok n → (modeFromString n.Mode).2 = some e →
      env.nsOfPath args.Netns = .ok ns → env.randomVethName = .ok tmp →
      (cmdAdd env args w).1 = some (.errorf "unknown ipvlan mode: %q" [.str n.Mode]) ∧
      (cmdAdd env args w).2.trace = w.trace ++
        [⟨.loadConf args.StdinData, none⟩, ⟨.openNs args.Netns, none⟩,
         ⟨.randomVethName, none⟩,
         ⟨.modeFromString n.Mode, some (.errorf "unknown ipvlan mode: %q" [.str n.Mode])⟩] ∧
      (cmdAdd env args w).2.links = w.links ∧
      (cmdAdd env args w).2.allocs = w.allocs) := by
  refine ⟨?_, ?_, ?_⟩
  · intro h hm
    simp [loadConf, h, hm]
  · intro bytes2 mode2 h hm h2 hdel
    have hl : loadConf env args.StdinData = .ok n := by simp [loadConf, h, hm]
    have hl2 : loadConf env bytes2 = .ok { n with Mode := mode2 } := by simp [loadConf, h2, hm]
    have hirr := cmdDel_payload_irrelevant env args w bytes2 n { n with Mode := mode2 } hl hl2
      rfl hdel
    refine ⟨hirr.1, hirr.2.1, hirr.2.2, ?_, ?_⟩
    · have hr := cmdDel_run env args w
      generalize cmdDel env args w = p at hr ⊢
      obtain ⟨r, w'⟩ := p
      dsimp only at hr ⊢
      cases hr <;> simp_all [Op.step]
    · intro hrel
      have hr := cmdDel_run env args w
      generalize cmdDel env args w = p at hr ⊢
      obtain ⟨r, w'⟩ := p
      dsimp only at hr ⊢
      cases hr <;> simp_all
  · intro ns tmp e hl hmode hp hr
    have he : e = .errorf "unknown ipvlan mode: %q" [.str n.Mode] := by
      unfold modeFromString at hmode
      split_ifs at hmode
      simp_all
    subst he
    simp [cmdAdd, hl, osOpen_ok _ _ _ _ hp, cmdAddOpened, hr, createIpvlan, hmode, osClose,
      errOf]

/-- C10, witness: payload `[3]` (mode "l5") is loaded; Delete with it returns
what Delete with payload `[1]` (mode "l3") returns; Add with it stops at the
mode, with the unknown-mode error. -/
theorem mode_checked_on_add_only_witness :
    loadConf env0 [3] = .ok { conf0 with Mode := "l5" } ∧
    (cmdDel env0 { args0 with StdinData := [3] } w0).1 = (cmdDel env0 args0 w0).1 ∧
    (cmdAdd env0 { args0 with StdinData := [3] } w0).1 =
      some (.errorf "unknown ipvlan mode: %q" [.str "l5"]) :=
  ⟨(mode_checked_on_add_only env0 { args0 with StdinData := [3] } w0
      { conf0 with Mode := "l5" }).1 rfl (by decide),
    ((mode_checked_on_add_only env0 args0 w0 conf0).2.1 [3] "l5" rfl (by decide) rfl rfl).1,
    ((mode_checked_on_add_only env0 { args0 with StdinData := [3] } w0
      { conf0 with Mode := "l5" }).2.2 1 "veth1a2b3c4d"
      (.errorf "unknown ipvlan mode: %q" [.str "l5"]) rfl (by decide) rfl rfl).1⟩

/-- C4: when the address delegate answers with a result that has no IPv4
part, `cmdAdd` fails; it enters no namespace, renames and configures nothing,
installs no masquerade rule and prints no result (the rules and the output
are as before); and once the delegate has been reached, the error is the
missing-IPv4 error raised by the check, the last step attempted. -/
theorem cmdAdd_missing_ip4 (env : Env) (args : CmdArgs) (w : World) (n : NetConf)
    (res : Result) (hload : loadConf env args.StdinData = .ok n)
    (hexec : env.execAdd n.IPAMType args.StdinData = .ok res) (hip4 : res.IP4 = none) :
    (cmdAdd env args w).1 ≠ none ∧
    (cmdAdd env args w).2.masq = w.masq ∧ (cmdAdd env args w).2.stdout = w.stdout ∧
    ∃ evs, (cmdAdd env args w).2.trace = w.trace ++ evs ∧
      (∀ ev ∈ evs, ev.op.step ≠ .enterNs ∧ ev.op.step ≠ .renameLink ∧
        ev.op.step ≠ .configureIface ∧ ev.op.step ≠ .leaveNs ∧
        ev.op.step ≠ .setupIPMasq ∧ ev.op.step ≠ .printResult) ∧
      ((⟨.execAdd n.IPAMType args.StdinData, none⟩ : Event) ∈ evs →
        (cmdAdd env args w).1 = some (.new "IPAM plugin returned missing IPv4 config") ∧
        evs.getLast? =
          some ⟨.checkIP4, some (.new "IPAM plugin returned missing IPv4 config")⟩) := by
  have hr := cmdAdd_run env args w
  generalize cmdAdd env args w = p at hr ⊢
  obtain ⟨r, w'⟩ := p
  dsimp only at hr ⊢
  cases hr with
  | loadFail _ e hload' htrace => simp_all
  | openFail _ n' e hload' hns htrace hrules hout =>
    exact ⟨by simp, hrules, hout, _, htrace, by simp [Op.step], by simp⟩
  | randFail _ n' ns e hload' hns hrand htrace hrules hout =>
    exact ⟨by simp, hrules, hout, _, htrace, by simp [Op.step], by simp⟩
  | modeFail _ n' ns tmp e hload' hns hrand hmode htrace hrules hout =>
    exact ⟨by simp, hrules, hout, _, htrace, by simp [Op.step], by simp⟩
  | lookupFail _ n' ns tmp hload' hns hrand hmode hmaster htrace hrules hout =>
    exact ⟨by simp, hrules, hout, _, htrace, by simp [Op.step], by simp⟩
  | addFail _ n' ns tmp m e hload' hns hrand hmode hmaster htrace hrules hout =>
    exact ⟨by simp, hrules, hout, _, htrace, by simp [Op.step], by simp⟩
  | execFail _ n' ns tmp m e hload' hns hrand hmode hmaster hexec' => simp_all
  | ip4Missing _ n' ns tmp m res' hload' hns hrand hmode hmaster hexec' hip4' hdev halloc htrace
      hrules hout =>
    exact ⟨by simp, hrules, hout, _, htrace, by simp [Op.step], by simp⟩
  | enterFail _ n' ns tmp m res' ip4 e hload' hns hrand hmode hmaster hexec' hip4' => simp_all
  | renameFail _ n' ns tmp m res' ip4 e hload' hns hrand hmode hmaster hexec' hip4' => simp_all
  | configureFail _ n' ns tmp m res' ip4 e hload' hns hrand hmode hmaster hexec' hip4' =>
    simp_all
  | leaveFail _ n' ns tmp m res' ip4 e hload' hns hrand hmode hmaster hexec' hip4' => simp_all
  | masqFail _ n' ns tmp m res' ip4 e hload' hns hrand hmode hmaster hexec' hip4' => simp_all
  | printFail _ n' ns tmp m res' ip4 e hload' hns hrand hmode hmaster hexec' hip4' => simp_all
  | ok _ n' ns tmp m res' ip4 hload' hns hrand hmode hmaster hexec' hip4' => simp_all

/-- C3: after every successful `cmdAdd`, the created device (the index the
kernel handed out, the requested MTU, parent and mode, brought up with the
allocated address) stands in the target namespace under exactly
`args.IfName`, and the temporary name was free there before. With the
temporary name drawn apart from the caller's names (it differs from
`args.IfName`), no link of the temporary name remains in the target namespace.
With the target namespace distinct from the caller's, as the spec defines it,
the created link is not in the host namespace: every name there holds what it
held before. Every other name of the target namespace is untouched as well. -/
theorem cmdAdd_final_name (env : Env) (args : CmdArgs) (w : World) (ns : NsId) (tmp : String)
    (hrun : (cmdAdd env args w).1 = none)
    (hns : env.nsOfPath args.Netns = .ok ns) (hrand : env.randomVethName = .ok tmp) :
    (∃ n m res ip4, loadConf env args.StdinData = .ok n ∧
      w.links w.curNs n.Master = some m ∧
      env.execAdd n.IPAMType args.StdinData = .ok res ∧ res.IP4 = some ip4 ∧
      (cmdAdd env args w).2.links ns args.IfName = some (addedDevice w n m.index ip4)) ∧
    w.links ns tmp = none ∧
    (tmp ≠ args.IfName → (cmdAdd env args w).2.links ns tmp = none) ∧
    (∀ name, name ≠ args.IfName → name ≠ tmp →
      (cmdAdd env args w).2.links ns name = w.links ns name) ∧
    (ns ≠ w.curNs →
      ∀ name, (cmdAdd env args w).2.links w.curNs name = w.links w.curNs name) := by
  have hr := cmdAdd_run env args w
  generalize cmdAdd env args w = p at hr hrun ⊢
  obtain ⟨r, w'⟩ := p
  dsimp only at hr hrun ⊢
  subst hrun
  cases hr with
  | ok _ n ns' tmp' m res ip4 hload hns' hrand' hmode hmaster hexec hip4 hdev halloc henter hleave hmasq hprint hfree hlinks hrules hout htrace =>
    rw [hns] at hns'
    rw [hrand] at hrand'
    cases hns'
    cases hrand'
    refine ⟨⟨n, m, res, ip4, hload, hmaster, hexec, hip4, ?_⟩, hfree, ?_, ?_, ?_⟩
    · rw [hlinks]; simp
    · intro hne
      rw [hlinks]; simp [hne]
    · intro name h1 h2
      rw [hlinks]; simp [h1, h2]
    · intro hhost name
      rw [hlinks]
      have h3 : ¬ w.curNs = ns := fun h => hhost h.symm
      simp [h3]

/-- C3, witness: the scenario of the spec, payload `[1]` into
`/var/run/netns/c1` under the name `eth0v`; the container namespace is not the
host's and the name drawn is not `eth0v`. -/
theorem cmdAdd_final_name_witness :
    ((cmdAdd env0 args0 w0).1 = none ∧ env0.nsOfPath args0.Netns = .ok 1 ∧
      env0.randomVethName = .ok "veth1a2b3c4d") ∧
    (∃ n m res ip4, loadConf env0 args0.StdinData = .ok n ∧
      w0.links w0.curNs n.Master = some m ∧
      env0.execAdd n.IPAMType args0.StdinData = .ok res ∧ res.IP4 = some ip4 ∧
      (cmdAdd env0 args0 w0).2.links 1 args0.IfName = some (addedDevice w0 n m.index ip4)) ∧
    w0.links 1 "veth1a2b3c4d" = none ∧
    (cmdAdd env0 args0 w0).2.links 1 "veth1a2b3c4d" = none ∧
    (∀ name, name ≠ args0.IfName → name ≠ "veth1a2b3c4d" →
      (cmdAdd env0 args0 w0).2.links 1 name = w0.links 1 name) ∧
    (∀ name, (cmdAdd env0 args0 w0).2.links w0.curNs name = w0.links w0.curNs name) :=
  ⟨⟨by decide, rfl, rfl⟩,
    (cmdAdd_final_name env0 args0 w0 1 "veth1a2b3c4d" (by decide) rfl rfl).1,
    (cmdAdd_final_name env0 args0 w0 1 "veth1a2b3c4d" (by decide) rfl rfl).2.1,
    (cmdAdd_final_name env0 args0 w0 1 "veth1a2b3c4d" (by decide) rfl rfl).2.2.1 (by decide),
    (cmdAdd_final_name env0 args0 w0 1 "veth1a2b3c4d" (by decide) rfl rfl).2.2.2.1,
    (cmdAdd_final_name env0 args0 w0 1 "veth1a2b3c4d" (by decide) rfl rfl).2.2.2.2
      (by decide)⟩

/-- C2, witness: payload `[2]`, whose decoded configuration has no master. -/
theorem cmdAdd_missing_master_witness :
    (env0.unmarshal [2] = .ok { conf0 with Master := "" } ∧
      ({ conf0 with Master := "" } : NetConf).Master = "") ∧
    (loadConf env0 { args0 with StdinData := [2] }.StdinData = .error (.errorf
      "\"master\" field is required. It specifies the host interface name to virtualize" []) ∧
    cmdAdd env0 { args0 with StdinData := [2] } w0 =
      (some (.errorf
        "\"master\" field is required. It specifies the host interface name to virtualize" []),
       { w0 with trace := w0.trace ++ [⟨.loadConf { args0 with StdinData := [2] }.StdinData, some (.errorf
        "\"master\" field is required. It specifies the host interface name to virtualize" [])⟩] })) :=
  ⟨⟨rfl, rfl⟩,
    cmdAdd_missing_master env0 { args0 with StdinData := [2] } w0 { conf0 with Master := "" }
      rfl rfl⟩

/-- C4, witness: payload `[4]`, for which the delegate answers without IPv4. -/
theorem cmdAdd_missing_ip4_witness :
    (loadConf env0 [4] = .ok conf0 ∧
      env0.execAdd conf0.IPAMType [4] = .ok { IP4 := none, IP6 := none }) ∧
    ((cmdAdd env0 { args0 with StdinData := [4] } w0).1 ≠ none ∧
    (cmdAdd env0 { args0 with StdinData := [4] } w0).2.masq = w0.masq ∧ (cmdAdd env0 { args0 with StdinData := [4] } w0).2.stdout = w0.stdout ∧
    ∃ evs, (cmdAdd env0 { args0 with StdinData := [4] } w0).2.trace = w0.trace ++ evs ∧
      (∀ ev ∈ evs, ev.op.step ≠ .enterNs ∧ ev.op.step ≠ .renameLink ∧
        ev.op.step ≠ .configureIface ∧ ev.op.step ≠ .leaveNs ∧
        ev.op.step ≠ .setupIPMasq ∧ ev.op.step ≠ .printResult) ∧
      ((⟨.execAdd conf0.IPAMType { args0 with StdinData := [4] }.StdinData, none⟩ : Event) ∈ evs →
        (cmdAdd env0 { args0 with StdinData := [4] } w0).1 = some (.new "IPAM plugin returned missing IPv4 config") ∧
        evs.getLast? =
          some ⟨.checkIP4, some (.new "IPAM plugin returned missing IPv4 config")⟩)) :=
  ⟨⟨rfl, rfl⟩,
    cmdAdd_missing_ip4 env0 { args0 with StdinData := [4] } w0 conf0
      { IP4 := none, IP6 := none } rfl rfl rfl⟩

set_option maxHeartbeats 4000000 in
/-- C5: in `cmdAdd` the masquerade step is attempted exactly when the loaded
configuration has `ipMasq` and the twelve earlier steps (load, namespace open,
temporary name, mode, master lookup, link-add, allocation, IPv4 check, enter,
rename, configure, leave) all ran and succeeded. When it is attempted, its
chain is "CNI-" followed by the configuration's name and its network is the
range of the allocated IPv4 address. With `ipMasq` false it is never
attempted. After a successful Add the installed rules are the old ones plus
that rule when `ipMasq` is set, and no other. -/
theorem cmdAdd_masquerade (env : Env) (args : CmdArgs) (w : World) :
    ∃ evs, (cmdAdd env args w).2.trace = w.trace ++ evs ∧
      ((∃ ev ∈ evs, ev.op.step = .setupIPMasq) ↔
        ((∃ n, loadConf env args.StdinData = .ok n ∧ n.IPMasq = true) ∧
          (evs.take 12).map (fun ev => ev.op.step) = provisionSteps ∧
          ∀ ev ∈ evs.take 12, ev.err = none)) ∧
      (∀ ev ∈ evs, ev.op.step = .setupIPMasq →
        ∃ n res ip4, loadConf env args.StdinData = .ok n ∧
          env.execAdd n.IPAMType args.StdinData = .ok res ∧ res.IP4 = some ip4 ∧
          ev.op = .setupIPMasq (Network ip4.IP) ("CNI-" ++ n.Name)) ∧
      (∀ n, loadConf env args.StdinData = .ok n → n.IPMasq = false →
        ∀ ev ∈ evs, ev.op.step ≠ .setupIPMasq) ∧
      ((cmdAdd env args w).1 = none →
        ∃ n res ip4, loadConf env args.StdinData = .ok n ∧
          env.execAdd n.IPAMType args.StdinData = .ok res ∧ res.IP4 = some ip4 ∧
          (cmdAdd env args w).2.masq = w.masq ++
            (if n.IPMasq then [(Network ip4.IP, "CNI-" ++ n.Name)] else [])) := by
  have hr := cmdAdd_run env args w
  generalize cmdAdd env args w = p at hr ⊢
  obtain ⟨r, w'⟩ := p
  dsimp only at hr ⊢
  cases hr with
  | loadFail _ e hload htrace =>
    refine ⟨_, htrace, ?_, ?_, ?_, ?_⟩
    · simp [provisionSteps, Op.step]
    · simp [Op.step]
    · intro n1 _ _
      simp [Op.step]
    · simp
  | openFail _ n e hload hns htrace =>
    refine ⟨_, htrace, ?_, ?_, ?_, ?_⟩
    · simp [provisionSteps, Op.step]
    · simp [Op.step]
    · intro n1 _ _
      simp [Op.step]
    · simp
  | randFail _ n ns e hload hns hrand htrace =>
    refine ⟨_, htrace, ?_, ?_, ?_, ?_⟩
    · simp [provisionSteps, Op.step]
    · simp [Op.step]
    · intro n1 _ _
      simp [Op.step]
    · simp
  | modeFail _ n ns tmp e hload hns hrand hmode htrace =>
    refine ⟨_, htrace, ?_, ?_, ?_, ?_⟩
    · simp [provisionSteps, Op.step]
    · simp [Op.step]
    · intro n1 _ _
      simp [Op.step]
    · simp
  | lookupFail _ n ns tmp hload hns hrand hmode hmaster htrace =>
    refine ⟨_, htrace, ?_, ?_, ?_, ?_⟩
    · simp [provisionSteps, Op.step]
    · simp [Op.step]
    · intro n1 _ _
      simp [Op.step]
    · simp
  | addFail _ n ns tmp m e hload hns hrand hmode hmaster htrace =>
    refine ⟨_, htrace, ?_, ?_, ?_, ?_⟩
    · simp [provisionSteps, Op.step]
    · simp [Op.step]
    · intro n1 _ _
      simp [Op.step]
    · simp
  | execFail _ n ns tmp m e hload hns hrand hmode hmaster hexec hdev htrace =>
    refine ⟨_, htrace, ?_, ?_, ?_, ?_⟩
    · simp [provisionSteps, Op.step]
    · simp [Op.step]
    · intro n1 _ _
      simp [Op.step]
    · simp
  | ip4Missing _ n ns tmp m res hload hns hrand hmode hmaster hexec hip4 hdev halloc htrace =>
    refine ⟨_, htrace, ?_, ?_, ?_, ?_⟩
    · simp [provisionSteps, Op.step]
    · simp [Op.step]
    · intro n1 _ _
      simp [Op.step]
    · simp
  | enterFail _ n ns tmp m res ip4 e hload hns hrand hmode hmaster hexec hip4 hdev halloc henter htrace =>
    refine ⟨_, htrace, ?_, ?_, ?_, ?_⟩
    · simp [provisionSteps, Op.step]
    · simp [Op.step]
    · intro n1 _ _
      simp [Op.step]
    · simp
  | renameFail _ n ns tmp m res ip4 e hload hns hrand hmode hmaster hexec hip4 hdev halloc henter htrace =>
    refine ⟨_, htrace, ?_, ?_, ?_, ?_⟩
    · simp [provisionSteps, Op.step]
    · simp [Op.step]
    · intro n1 _ _
      simp [Op.step]
    · simp
  | configureFail _ n ns tmp m res ip4 e hload hns hrand hmode hmaster hexec hip4 hdev halloc henter htrace =>
    refine ⟨_, htrace, ?_, ?_, ?_, ?_⟩
    · simp [provisionSteps, Op.step]
    · simp [Op.step]
    · intro n1 _ _
      simp [Op.step]
    · simp
  | leaveFail _ n ns tmp m res ip4 e hload hns hrand hmode hmaster hexec hip4 hdev halloc henter hleave htrace =>
    refine ⟨_, htrace, ?_, ?_, ?_, ?_⟩
    · simp [provisionSteps, Op.step]
    · simp [Op.step]
    · intro n1 _ _
      simp [Op.step]
    · simp
  | masqFail _ n ns tmp m res ip4 e hload hns hrand hmode hmaster hexec hip4 hdev halloc henter hleave hflag hmasq htrace =>
    refine ⟨_, htrace, ?_, ?_, ?_, ?_⟩
    · simp [provisionSteps, Op.step, hload, hflag]
    · simp [Op.step, hload, hexec, hip4]
    · intro n1 hl1 hf1
      rw [hload] at hl1
      cases hl1
      rw [hflag] at hf1
      cases hf1
    · simp
  | printFail _ n ns tmp m res ip4 e hload hns hrand hmode hmaster hexec hip4 hdev halloc henter hleave hmasq hprint htrace =>
    cases hb : n.IPMasq with
    | false =>
      simp only [hb, Bool.false_eq_true, if_false, List.append_nil, List.append_assoc,
        List.cons_append, List.nil_append] at htrace
      refine ⟨_, htrace, ?_, ?_, ?_, ?_⟩
      · simp [provisionSteps, Op.step, hload, hb]
      · simp [Op.step]
      · intro n1 _ _
        simp [Op.step]
      · simp
    | true =>
      simp only [hb, if_true, List.append_assoc, List.cons_append, List.nil_append] at htrace
      refine ⟨_, htrace, ?_, ?_, ?_, ?_⟩
      · simp [provisionSteps, Op.step, hload, hb]
      · simp [Op.step, hload, hexec, hip4]
      · intro n1 hl1 hf1
        rw [hload] at hl1
        cases hl1
        rw [hb] at hf1
        cases hf1
      · simp
  | ok _ n ns tmp m res ip4 hload hns hrand hmode hmaster hexec hip4 hdev halloc henter hleave hmasq hprint hfree hlinks hrules hout htrace =>
    cases hb : n.IPMasq with
    | false =>
      simp only [hb, Bool.false_eq_true, if_false, List.append_nil, List.append_assoc,
        List.cons_append, List.nil_append] at htrace
      refine ⟨_, htrace, ?_, ?_, ?_, ?_⟩
      · simp [provisionSteps, Op.step, hload, hb]
      · simp [Op.step]
      · intro n1 _ _
        simp [Op.step]
      · intro _
        exact ⟨n, res, ip4, hload, hexec, hip4, by simpa [hb] using hrules⟩
    | true =>
      simp only [hb, if_true, List.append_assoc, List.cons_append, List.nil_append] at htrace
      refine ⟨_, htrace, ?_, ?_, ?_, ?_⟩
      · simp [provisionSteps, Op.step, hload, hb]
      · simp [Op.step, hload, hexec, hip4]
      · intro n1 hl1 hf1
        rw [hload] at hl1
        cases hl1
        rw [hb] at hf1
        cases hf1
      · intro _
        exact ⟨n, res, ip4, hload, hexec, hip4, by simpa [hb] using hrules⟩

/-- C6: when `cmdAdd` fails, the steps it attempted are a prefix of the fixed
sequence of `addSteps` (the masquerade step present only when the
configuration has `ipMasq`); every attempted step but the last succeeded and
the last one failed; the error returned is the error of that last step, as it
is or wrapped with a message. No compensating step is among them (no link
deletion, no delegate release): when the link-add had succeeded the created
device is still in the target namespace, under the temporary or the final
name, and when the delegate had allocated, the allocation is still held. -/
theorem cmdAdd_stops_at_first_failure (env : Env) (args : CmdArgs) (w : World) (e : Error)
    (h : (cmdAdd env args w).1 = some e) :
    ∃ evs last inner, (cmdAdd env args w).2.trace = w.trace ++ evs ∧
      (∀ flag, (∀ n, loadConf env args.StdinData = .ok n → n.IPMasq = flag) →
        evs.map (fun ev => ev.op.step) <+: addSteps flag) ∧
      (∀ ev ∈ evs.dropLast, ev.err = none) ∧
      evs.getLast? = some last ∧ last.err = some inner ∧ Wraps e inner ∧
      (∀ ev ∈ evs, ev.op.step ≠ .delLink ∧ ev.op.step ≠ .execDel) ∧
      (∀ req, (⟨.linkAdd req, none⟩ : Event) ∈ evs →
        ∃ ns tmp, env.nsOfPath args.Netns = .ok ns ∧ env.randomVethName = .ok tmp ∧
          w.keepsCreated (cmdAdd env args w).2 ns tmp args.IfName) ∧
      (∀ t b, (⟨.execAdd t b, none⟩ : Event) ∈ evs →
        ∃ res, env.execAdd t b = .ok res ∧ Alloc.mk t b res ∈ (cmdAdd env args w).2.allocs) := by
  have hr := cmdAdd_run env args w
  generalize cmdAdd env args w = p at hr h ⊢
  obtain ⟨r, w'⟩ := p
  dsimp only at hr h ⊢
  subst h
  unfold Wraps
  cases hr with
  | loadFail _ e hload htrace =>
    refine ⟨_, _, _, htrace, ?_, ?_, rfl, rfl, ?_, ?_, ?_, ?_⟩
    · intro flag _
      simp [addSteps, provisionSteps, Op.step]
    · simp
    · exact Or.inl rfl
    · simp [Op.step]
    · intro req hreq
      simp at hreq
    · intro t b hm
      simp at hm
  | openFail _ n e hload hns htrace =>
    refine ⟨_, _, _, htrace, ?_, ?_, rfl, rfl, ?_, ?_, ?_, ?_⟩
    · intro flag hf
      have hfn := hf n hload
      subst hfn
      simp_all [addSteps, provisionSteps, Op.step]
    · simp
    · exact Or.inr ⟨_, _, rfl⟩
    · simp [Op.step]
    · intro req hreq
      simp at hreq
    · intro t b hm
      simp at hm
  | randFail _ n ns e hload hns hrand htrace =>
    refine ⟨_, _, _, htrace, ?_, ?_, rfl, rfl, ?_, ?_, ?_, ?_⟩
    · intro flag hf
      have hfn := hf n hload
      subst hfn
      simp_all [addSteps, provisionSteps, Op.step]
    · simp
    · exact Or.inl rfl
    · simp [Op.step]
    · intro req hreq
      simp at hreq
    · intro t b hm
      simp at hm
  | modeFail _ n ns tmp e hload hns hrand hmode htrace =>
    refine ⟨_, _, _, htrace, ?_, ?_, rfl, rfl, ?_, ?_, ?_, ?_⟩
    · intro flag hf
      have hfn := hf n hload
      subst hfn
      simp_all [addSteps, provisionSteps, Op.step]
    · simp
    · exact Or.inl rfl
    · simp [Op.step]
    · intro req hreq
      simp at hreq
    · intro t b hm
      simp at hm
  | lookupFail _ n ns tmp hload hns hrand hmode hmaster htrace =>
    refine ⟨_, _, _, htrace, ?_, ?_, rfl, rfl, ?_, ?_, ?_, ?_⟩
    · intro flag hf
      have hfn := hf n hload
      subst hfn
      simp_all [addSteps, provisionSteps, Op.step]
    · simp
    · exact Or.inr ⟨_, _, rfl⟩
    · simp [Op.step]
    · intro req hreq
      simp at hreq
    · intro t b hm
      simp at hm
  | addFail _ n ns tmp m e hload hns hrand hmode hmaster htrace =>
    refine ⟨_, _, _, htrace, ?_, ?_, rfl, rfl, ?_, ?_, ?_, ?_⟩
    · intro flag hf
      have hfn := hf n hload
      subst hfn
      simp_all [addSteps, provisionSteps, Op.step]
    · simp
    · exact Or.inr ⟨_, _, rfl⟩
    · simp [Op.step]
    · intro req hreq
      simp at hreq
    · intro t b hm
      simp at hm
  | execFail _ n ns tmp m e hload hns hrand hmode hmaster hexec hdev htrace =>
    refine ⟨_, _, _, htrace, ?_, ?_, rfl, rfl, ?_, ?_, ?_, ?_⟩
    · intro flag hf
      have hfn := hf n hload
      subst hfn
      simp_all [addSteps, provisionSteps, Op.step]
    · simp
    · exact Or.inl rfl
    · simp [Op.step]
    · intro _ _
      exact ⟨ns, tmp, hns, hrand, hdev⟩
    · intro t b hm
      simp at hm
  | ip4Missing _ n ns tmp m res hload hns hrand hmode hmaster hexec hip4 hdev halloc htrace =>
    refine ⟨_, _, _, htrace, ?_, ?_, rfl, rfl, ?_, ?_, ?_, ?_⟩
    · intro flag hf
      have hfn := hf n hload
      subst hfn
      simp_all [addSteps, provisionSteps, Op.step]
    · simp
    · exact Or.inl rfl
    · simp [Op.step]
    · intro _ _
      exact ⟨ns, tmp, hns, hrand, hdev⟩
    · intro t b hm
      simp at hm
      obtain ⟨rfl, rfl⟩ := hm
      exact ⟨res, hexec, halloc⟩
  | enterFail _ n ns tmp m res ip4 e hload hns hrand hmode hmaster hexec hip4 hdev halloc henter htrace =>
    refine ⟨_, _, _, htrace, ?_, ?_, rfl, rfl, ?_, ?_, ?_, ?_⟩
    · intro flag hf
      have hfn := hf n hload
      subst hfn
      simp_all [addSteps, provisionSteps, Op.step]
    · simp
    · exact Or.inl rfl
    · simp [Op.step]
    · intro _ _
      exact ⟨ns, tmp, hns, hrand, hdev⟩
    · intro t b hm
      simp at hm
      obtain ⟨rfl, rfl⟩ := hm
      exact ⟨res, hexec, halloc⟩
  | renameFail _ n ns tmp m res ip4 e hload hns hrand hmode hmaster hexec hip4 hdev halloc henter htrace =>
    refine ⟨_, _, _, htrace, ?_, ?_, rfl, rfl, ?_, ?_, ?_, ?_⟩
    · intro flag hf
      have hfn := hf n hload
      subst hfn
      simp_all [addSteps, provisionSteps, Op.step]
    · simp
    · exact Or.inr ⟨_, _, rfl⟩
    · simp [Op.step]
    · intro _ _
      exact ⟨ns, tmp, hns, hrand, hdev⟩
    · intro t b hm
      simp at hm
      obtain ⟨rfl, rfl⟩ := hm
      exact ⟨res, hexec, halloc⟩
  | configureFail _ n ns tmp m res ip4 e hload hns hrand hmode hmaster hexec hip4 hdev halloc henter htrace =>
    refine ⟨_, _, _, htrace, ?_, ?_, rfl, rfl, ?_, ?_, ?_, ?_⟩
    · intro flag hf
      have hfn := hf n hload
      subst hfn
      simp_all [addSteps, provisionSteps, Op.step]
    · simp
    · exact Or.inl rfl
    · simp [Op.step]
    · intro _ _
      exact ⟨ns, tmp, hns, hrand, hdev⟩
    · intro t b hm
      simp at hm
      obtain ⟨rfl, rfl⟩ := hm
      exact ⟨res, hexec, halloc⟩
  | leaveFail _ n ns tmp m res ip4 e hload hns hrand hmode hmaster hexec hip4 hdev halloc henter hleave htrace =>
    refine ⟨_, _, _, htrace, ?_, ?_, rfl, rfl, ?_, ?_, ?_, ?_⟩
    · intro flag hf
      have hfn := hf n hload
      subst hfn
      simp_all [addSteps, provisionSteps, Op.step]
    · simp
    · exact Or.inl rfl
    · simp [Op.step]
    · intro _ _
      exact ⟨ns, tmp, hns, hrand, hdev⟩
    · intro t b hm
      simp at hm
      obtain ⟨rfl, rfl⟩ := hm
      exact ⟨res, hexec, halloc⟩
  | masqFail _ n ns tmp m res ip4 e hload hns hrand hmode hmaster hexec hip4 hdev halloc henter hleave hflag hmasq htrace =>
    refine ⟨_, _, _, htrace, ?_, ?_, rfl, rfl, ?_, ?_, ?_, ?_⟩
    · intro flag hf
      have hfn := hf n hload
      subst hfn
      simp_all [addSteps, provisionSteps, Op.step]
    · simp
    · exact Or.inl rfl
    · simp [Op.step]
    · intro _ _
      exact ⟨ns, tmp, hns, hrand, hdev⟩
    · intro t b hm
      simp at hm
      obtain ⟨rfl, rfl⟩ := hm
      exact ⟨res, hexec, halloc⟩
  | printFail _ n ns tmp m res ip4 e hload hns hrand hmode hmaster hexec hip4 hdev halloc henter hleave hmasq hprint htrace =>
    cases hb : n.IPMasq with
    | false =>
      simp only [hb, Bool.false_eq_true, if_false, List.append_nil, List.append_assoc,
        List.cons_append, List.nil_append] at htrace
      refine ⟨_, _, _, htrace, ?_, ?_, rfl, rfl, ?_, ?_, ?_, ?_⟩
      · intro flag hf
        have hfn := hf n hload
        subst hfn
        simp_all [addSteps, provisionSteps, Op.step]
      · simp
      · exact Or.inl rfl
      · simp [Op.step]
      · intro _ _
        exact ⟨ns, tmp, hns, hrand, hdev⟩
      · intro t b hm
        simp at hm
        obtain ⟨rfl, rfl⟩ := hm
        exact ⟨res, hexec, halloc⟩
    | true =>
      simp only [hb, if_true, List.append_assoc, List.cons_append, List.nil_append] at htrace
      refine ⟨_, _, _, htrace, ?_, ?_, rfl, rfl, ?_, ?_, ?_, ?_⟩
      · intro flag hf
        have hfn := hf n hload
        subst hfn
        simp_all [addSteps, provisionSteps, Op.step]
      · simp
      · exact Or.inl rfl
      · simp [Op.step]
      · intro _ _
        exact ⟨ns, tmp, hns, hrand, hdev⟩
      · intro t b hm
        simp at hm
        obtain ⟨rfl, rfl⟩ := hm
        exact ⟨res, hexec, halloc⟩

/-- C6, witness: payload `[3]`, whose mode "l5" is rejected at the fourth step. -/
theorem cmdAdd_stops_at_first_failure_witness :
    (cmdAdd env0 { args0 with StdinData := [3] } w0).1 =
      some (.errorf "unknown ipvlan mode: %q" [.str "l5"]) ∧
    (∃ evs last inner, (cmdAdd env0 { args0 with StdinData := [3] } w0).2.trace = w0.trace ++ evs ∧
      (∀ flag, (∀ n, loadConf env0 { args0 with StdinData := [3] }.StdinData = .ok n → n.IPMasq = flag) →
        evs.map (fun ev => ev.op.step) <+: addSteps flag) ∧
      (∀ ev ∈ evs.dropLast, ev.err = none) ∧
      evs.getLast? = some last ∧ last.err = some inner ∧ Wraps (.errorf "unknown ipvlan mode: %q" [.str "l5"]) inner ∧
      (∀ ev ∈ evs, ev.op.step ≠ .delLink ∧ ev.op.step ≠ .execDel) ∧
      (∀ req, (⟨.linkAdd req, none⟩ : Event) ∈ evs →
        ∃ ns tmp, env0.nsOfPath { args0 with StdinData := [3] }.Netns = .ok ns ∧ env0.randomVethName = .ok tmp ∧
          w0.keepsCreated (cmdAdd env0 { args0 with StdinData := [3] } w0).2 ns tmp { args0 with StdinData := [3] }.IfName) ∧
      (∀ t b, (⟨.execAdd t b, none⟩ : Event) ∈ evs →
        ∃ res, env0.execAdd t b = .ok res ∧ Alloc.mk t b res ∈ (cmdAdd env0 { args0 with StdinData := [3] } w0).2.allocs)) :=
  ⟨by decide,
    cmdAdd_stops_at_first_failure env0 { args0 with StdinData := [3] } w0
      (.errorf "unknown ipvlan mode: %q" [.str "l5"]) (by decide)⟩

/-- C7: `cmdDel` attempts, in this order and stopping at the first failure, the
load, the delegate release and the deletion of the link `args.IfName` inside
the namespace at `args.Netns` (open it, enter, delete, leave). When the
release fails, `cmdDel` returns that error and no deletion is attempted. When
the release succeeds and no link of that name is in the target namespace,
`cmdDel` fails (with the lookup error of the deletion, once inside the
namespace) and reports no success. It succeeds exactly when every step
succeeded, and then no link of that name is left in the target namespace. -/
theorem cmdDel_sequence (env : Env) (args : CmdArgs) (w : World) :
    ∃ evs, (cmdDel env args w).2.trace = w.trace ++ evs ∧
      evs.map (fun ev => ev.op.step) <+: delSteps ∧
      (∀ ev ∈ evs.dropLast, ev.err = none) ∧
      (∀ n e, loadConf env args.StdinData = .ok n →
        env.execDel n.IPAMType args.StdinData = some e →
        (cmdDel env args w).1 = some e ∧
        evs = [⟨.loadConf args.StdinData, none⟩,
               ⟨.execDel n.IPAMType args.StdinData, some e⟩] ∧
        (cmdDel env args w).2.links = w.links) ∧
      (∀ n ns, loadConf env args.StdinData = .ok n →
        env.execDel n.IPAMType args.StdinData = none →
        env.nsOfPath args.Netns = .ok ns → w.links ns args.IfName = none →
        (cmdDel env args w).1 ≠ none ∧
        (env.enterFault = none → (cmdDel env args w).1 =
          some (.wrapf "failed to lookup %q: %v" [.str args.IfName] (.lib "Link not found"))) ∧
        (cmdDel env args w).2.links = w.links) ∧
      ((cmdDel env args w).1 = none ↔
        (evs.map (fun ev => ev.op.step) = delSteps ∧ ∀ ev ∈ evs, ev.err = none)) ∧
      ((cmdDel env args w).1 = none →
        ∀ ns, env.nsOfPath args.Netns = .ok ns →
          (cmdDel env args w).2.links ns args.IfName = none) := by
  have hr := cmdDel_run env args w
  generalize cmdDel env args w = p at hr ⊢
  obtain ⟨r, w'⟩ := p
  dsimp only at hr ⊢
  cases hr with
  | loadFail _ e hload htrace hlinks hallocs =>
    refine ⟨_, htrace, ?_, ?_, ?_, ?_, ?_, ?_⟩
    · simp [delSteps, Op.step]
    · simp
    · intro n1 e1 hl1 hr1
      simp_all
    · intro n1 ns1 hl1 hr1 hn1 ha1
      simp_all
    · simp [delSteps, Op.step]
    · intro hr1 ns1 hn1
      simp_all [setLink]
  | releaseFail _ n e hload hrel htrace hlinks hallocs =>
    refine ⟨_, htrace, ?_, ?_, ?_, ?_, ?_, ?_⟩
    · simp [delSteps, Op.step]
    · simp
    · intro n1 e1 hl1 hr1
      simp_all
    · intro n1 ns1 hl1 hr1 hn1 ha1
      simp_all
    · simp [delSteps, Op.step]
    · intro hr1 ns1 hn1
      simp_all [setLink]
  | openFail _ n e hload hrel hns htrace hlinks =>
    refine ⟨_, htrace, ?_, ?_, ?_, ?_, ?_, ?_⟩
    · simp [delSteps, Op.step]
    · simp
    · intro n1 e1 hl1 hr1
      simp_all
    · intro n1 ns1 hl1 hr1 hn1 ha1
      simp_all
    · simp [delSteps, Op.step]
    · intro hr1 ns1 hn1
      simp_all [setLink]
  | enterFail _ n ns e hload hrel hns henter htrace hlinks =>
    refine ⟨_, htrace, ?_, ?_, ?_, ?_, ?_, ?_⟩
    · simp [delSteps, Op.step]
    · simp
    · intro n1 e1 hl1 hr1
      simp_all
    · intro n1 ns1 hl1 hr1 hn1 ha1
      simp_all
    · simp [delSteps, Op.step]
    · intro hr1 ns1 hn1
      simp_all [setLink]
  | absent _ n ns hload hrel hns henter habsent htrace hlinks =>
    refine ⟨_, htrace, ?_, ?_, ?_, ?_, ?_, ?_⟩
    · simp [delSteps, Op.step]
    · simp
    · intro n1 e1 hl1 hr1
      simp_all
    · intro n1 ns1 hl1 hr1 hn1 ha1
      simp_all
    · simp [delSteps, Op.step]
    · intro hr1 ns1 hn1
      simp_all [setLink]
  | delFail _ n ns d e hload hrel hns henter hthere hdel htrace hlinks =>
    refine ⟨_, htrace, ?_, ?_, ?_, ?_, ?_, ?_⟩
    · simp [delSteps, Op.step]
    · simp
    · intro n1 e1 hl1 hr1
      simp_all
    · intro n1 ns1 hl1 hr1 hn1 ha1
      simp_all
    · simp [delSteps, Op.step]
    · intro hr1 ns1 hn1
      simp_all [setLink]
  | leaveFail _ n ns d e hload hrel hns henter hthere hdel hleave htrace hlinks =>
    refine ⟨_, htrace, ?_, ?_, ?_, ?_, ?_, ?_⟩
    · simp [delSteps, Op.step]
    · simp
    · intro n1 e1 hl1 hr1
      simp_all
    · intro n1 ns1 hl1 hr1 hn1 ha1
      simp_all
    · simp [delSteps, Op.step]
    · intro hr1 ns1 hn1
      simp_all [setLink]
  | ok _ n ns d hload hrel hns henter hthere hdel hleave htrace hlinks hallocs hhandles hcur =>
    refine ⟨_, htrace, ?_, ?_, ?_, ?_, ?_, ?_⟩
    · simp [delSteps, Op.step]
    · simp
    · intro n1 e1 hl1 hr1
      simp_all
    · intro n1 ns1 hl1 hr1 hn1 ha1
      simp_all
    · simp [delSteps, Op.step]
    · intro hr1 ns1 hn1
      simp_all [setLink]

/-- C8: whatever happens in `cmdAdd` (success or any failure, for every
outcome of every step), the table of open namespace handles after it is the
table before it: the handle it opened is closed again, and when the open
fails none is held. In particular the number of open handles is unchanged
and the descriptor `cmdAdd` used is not open afterwards. -/
theorem cmdAdd_closes_handle (env : Env) (args : CmdArgs) (w : World) :
    (cmdAdd env args w).2.handles = w.handles ∧
    (cmdAdd env args w).2.handles.length = w.handles.length ∧
    lookupFd (cmdAdd env args w).2.handles (freshFd w.handles) = none ∧
    (∀ n ns, loadConf env args.StdinData = .ok n → env.nsOfPath args.Netns = .ok ns →
      (osOpen env args.Netns (w.note (.loadConf args.StdinData) none)).1
          = .ok (freshFd w.handles) ∧
      lookupFd (osOpen env args.Netns (w.note (.loadConf args.StdinData) none)).2.handles
          (freshFd w.handles) = some ns ∧
      cmdAdd env args w =
        ((cmdAddOpened env args n (freshFd w.handles)
            (osOpen env args.Netns (w.note (.loadConf args.StdinData) none)).2).1,
         osClose (freshFd w.handles)
          (cmdAddOpened env args n (freshFd w.handles)
            (osOpen env args.Netns (w.note (.loadConf args.StdinData) none)).2).2)) ∧
    (∀ e, env.nsOfPath args.Netns = .error e →
      ∀ ev ∈ (cmdAdd env args w).2.trace.drop w.trace.length,
        ev.op.step = .loadConf ∨ ev.op.step = .openNs) := by
  have h := cmdAdd_handles_eq env args w
  refine ⟨h, by rw [h], ?_, ?_, ?_⟩
  · rw [h]
    exact lookupFd_fresh _ _ (fun x hx => Nat.ne_of_lt (lt_freshFd _ x hx))
  · intro n ns hl hp
    refine ⟨by simp [osOpen_ok _ _ _ _ hp], ?_, ?_⟩
    · simp only [osOpen_ok _ _ _ _ hp, note_handles]
      exact lookupFd_append_fresh w.handles ns
    · simp [cmdAdd, hl, osOpen_ok _ _ _ _ hp]
  · intro e hp
    unfold cmdAdd; dsimp only
    split
    · simp [Op.step]
    · simp [osOpen_error _ _ _ _ hp, Op.step]

end Ipvlan
